import Mathlib

/-!
Shallow embedding of the clinical-context aggregation engine of the
DSA_project_Group1 repository (FHIR resource adapters, the CodeableConcept
resolver and the patient-level context-synthesis algorithm), together with
theorems settling the specification claims about it.

Python-specific behaviours (string truthiness, stable `list.sort`,
insertion-ordered dicts, `set`-based deduplication) are modelled explicitly
by the helpers in the `Py` namespace.
-/

namespace DSA

namespace Py

/-- Python truthiness of an optional string (`None` and `""` are falsy). -/
def truthyS : Option String → Bool
| none => false
| some s => s ≠ ""

/-- Python truthiness of an optional natural number (`None` and `0` are falsy). -/
def truthyN : Option Nat → Bool
| none => false
| some n => n ≠ 0

/-- Python `str.lower` restricted to ASCII case mapping (the URIs and codes
the adapters lowercase are ASCII), implemented character-wise so that the
kernel can evaluate it. -/
def lowerStr (s : String) : String :=
String.mk (s.data.map Char.toLower)

/-- Python `str.startswith`, implemented on the character list. -/
def startsWithB (s pre : String) : Bool :=
pre.data.isPrefixOf s.data

/-- An ASCII whitespace character (the whitespace `str.strip` removes in the
texts the adapters handle). -/
def isWS (c : Char) : Bool :=
c = ' ' || c = '\t' || c = '\n' || c = '\r'

/-- Python `str.strip`. -/
def strip (s : String) : String :=
String.mk (((s.data.dropWhile isWS).reverse.dropWhile isWS).reverse)

/-- Split a character list at every occurrence of `c` (Python `str.split`
on a one-character separator). -/
def splitOnChar (c : Char) : List Char → List (List Char)
| [] => [[]]
| x :: xs =>
  if x = c then [] :: splitOnChar c xs
  else match splitOnChar c xs with
  | [] => [[x]]
  | h :: t => (x :: h) :: t

/-- Stable ascending sort by a key into a linear order, modelling Python
`list.sort(key=...)` (CPython's sort is stable; `List.insertionSort` inserts
a new element after existing key-equal elements, which matches). -/
def sortByKey {α β : Type} [LinearOrder β] (key : α → β) (l : List α) : List α :=
List.insertionSort (fun a b => key a ≤ key b) l

/-- Stable descending sort by key, modelling Python `list.sort(key=..., reverse=True)`
(equal-key elements keep their original relative order). -/
def sortByKeyRev {α β : Type} [LinearOrder β] (key : α → β) (l : List α) : List α :=
List.insertionSort (fun a b => key b ≤ key a) l

/-- Keep the first occurrence of each element, dropping later duplicates
(the order-theoretic description of a `seen`-set loop). -/
def dedupFirst {α : Type} [DecidableEq α] : List α → List α
| [] => []
| a :: l => a :: dedupFirst (l.filter (fun x => x ≠ a))
termination_by l => l.length
decreasing_by
  simp only [List.length_cons]
  exact Nat.lt_succ_of_le (List.length_filter_le _ _)

/-- Append a value to the entry of `k` in an insertion-ordered association
list of groups, creating the entry at the end if absent. This models one
`defaultdict(list)[k].append(v)` step (Python dicts preserve insertion
order of keys). -/
def pushKV {κ ν : Type} [DecidableEq κ] (k : κ) (v : ν) :
    List (κ × List ν) → List (κ × List ν)
| [] => [(k, [v])]
| (k', vs) :: rest => if k' = k then (k', vs ++ [v]) :: rest else (k', vs) :: pushKV k v rest

/-- Group an ordered list of key–value pairs with an insertion-ordered
`defaultdict(list)`. -/
def groupFold {κ ν : Type} [DecidableEq κ] (kv : List (κ × ν)) : List (κ × List ν) :=
kv.foldl (fun gs p => pushKV p.1 p.2 gs) []

/-- Boolean substring test used to model Python's `in` on strings. -/
def charsWithin : List Char → List Char → Bool
| needle, [] => needle.isEmpty
| needle, c :: rest => (needle.isPrefixOf (c :: rest)) || charsWithin needle rest

/-- Substring test on strings (`needle in hay` in Python). -/
def within (needle hay : String) : Bool :=
charsWithin needle.data hay.data

/-- Python `str.splitlines` restricted to `\n`-separated text, with a trailing
newline producing no trailing empty line (the adapters immediately strip and
drop blank lines, so this agrees with Python on all inputs they keep). -/
def splitLines (s : String) : List String :=
(splitOnChar '\n' s.data).map String.mk

/-- The `last_line` loop of `AppDiagnosticReport.to_prompt_string`: drop a
line equal to the immediately preceding kept line. -/
def collapseConsecDups : List String → String → List String
| [], _ => []
| l :: ls, last => if l ≠ last then l :: collapseConsecDups ls l else collapseConsecDups ls last

/-- Python `max` over a non-empty list given as head and tail (keeps the
current element on ties, updates on strictly greater). -/
def pyMaxFrom {α : Type} [LinearOrder α] (a : α) (l : List α) : α :=
l.foldl (fun cur x => if cur < x then x else cur) a

end Py

/-- Calendar date (year, month, day) embedding Python `date`/`datetime` at day
granularity; every comparison and rendering the synthesis performs is at the
`%Y-%m-%d` level. -/
structure PyDate where
  year : Nat
  month : Nat
  day : Nat
deriving DecidableEq, Repr

namespace PyDate

/-- Lexicographic key of a date. -/
def key (d : PyDate) : Lex (Nat ×  Lex (Nat × Nat)) :=
toLex (d.year, toLex (d.month, d.day))

instance : LinearOrder PyDate :=
LinearOrder.lift' key (fun a b h => by
  cases a; cases b
  simp only [key, toLex_inj, Prod.mk.injEq] at h
  simp [h.1, h.2.1, h.2.2])

/-- The embedding of `datetime.min` (used by the synthesis only as a sort key
for missing dates; its calendar fields are never rendered). -/
def min : PyDate := ⟨1, 1, 1⟩

/-- Zero-pad a natural number to two digits. -/
def pad2 (n : Nat) : String :=
if n < 10 then "0" ++ toString n else toString n

/-- Zero-pad a natural number to four digits. -/
def pad4 (n : Nat) : String :=
if n < 10 then "000" ++ toString n
else if n < 100 then "00" ++ toString n
else if n < 1000 then "0" ++ toString n
else toString n

/-- Python `strftime('%Y-%m-%d')`. -/
def strftime (d : PyDate) : String :=
pad4 d.year ++ "-" ++ pad2 d.month ++ "-" ++ pad2 d.day

end PyDate

/-- A `decimal.Decimal` as parsed by pydantic from a JSON number: an integer
significand together with the number of digits after the decimal point. -/
structure PyDecimal where
  num : Int
  shift : Nat
deriving DecidableEq, Repr

namespace PyDecimal

/-- Whether `val % 1 == 0` holds (the value is integral). -/
def isIntegral (d : PyDecimal) : Bool :=
((10 : Int) ^ d.shift ∣ d.num : Prop) |> decide

/-- Python `int(val)` (truncation toward zero; Lean `Int` division also
truncates toward zero). -/
def toInt (d : PyDecimal) : Int :=
d.num / (10 : Int) ^ d.shift

/-- Python truthiness of the decimal (`Decimal(0)` is falsy). -/
def truthy (d : PyDecimal) : Bool :=
d.num ≠ 0

/-- Comparison against a natural number literal (`period == 1`, `period == 24`). -/
def eqNat (d : PyDecimal) (n : Nat) : Bool :=
d.num = (n : Int) * (10 : Int) ^ d.shift

/-- Whether the value is strictly greater than one (`period > 1`). -/
def gtOne (d : PyDecimal) : Bool :=
d.num > (10 : Int) ^ d.shift

/-- Left-pad the decimal digits of `n` with zeros to width `w`. -/
def padZeros (w : Nat) (n : Nat) : String :=
let s := toString n
String.mk (List.replicate (w - s.length) '0') ++ s

/-- Python `str` of the decimal as stored (trailing zeros preserved, e.g.
`Decimal('1.50')` prints `1.50`). -/
def pyStr (d : PyDecimal) : String :=
if d.shift = 0 then toString d.num
else (if d.num < 0 then "-" else "")
  ++ toString (d.num.natAbs / 10 ^ d.shift) ++ "." ++ padZeros d.shift (d.num.natAbs % 10 ^ d.shift)

end PyDecimal

/-- One FHIR `Coding` (system URI, code, display), every field optional. -/
structure Coding where
  system : Option String
  code : Option String
  display : Option String
deriving DecidableEq, Repr

/-- A FHIR `CodeableConcept` as wrapped by `AppCodeableConcept`: the optional
free text and the list of codings (`source.coding if source.coding else []`
collapses a missing list and an empty list, which Python treats alike). -/
structure CodeableConcept where
  text : Option String
  codings : List Coding
deriving DecidableEq, Repr

/-- One entry of `coding_details`: cleaned system, code, optional display. -/
structure CodingDetail where
  system : String
  code : String
  display : Option String
deriving DecidableEq, Repr

namespace AppCodeableConcept

/-- `AppCodeableConcept.readable_value`: the `text` field if truthy, else the
first truthy coding `display`, else `None`. -/
def readable_value (c : CodeableConcept) : Option String :=
if Py.truthyS c.text then c.text
else c.codings.findSome? (fun cd => if Py.truthyS cd.display then cd.display else none)

/-- `AppCodeableConcept._clean_system_name`: normalize a system URI to a short
canonical name by substring match on the lowercased URI; unrecognized URIs
pass through unchanged. -/
def clean_system_name (uri : String) : String :=
let u := Py.lowerStr uri
if Py.within "snomed" u then "SNOMED"
else if Py.within "loinc" u then "LOINC"
else if Py.within "rxnorm" u then "RxNorm"
else if Py.within "icd-9" u then "ICD-9"
else if Py.within "icd-10" u then "ICD-10"
else if Py.within "unitsofmeasure" u || Py.within "ucum" u then "UCUM"
else if Py.within "cvx" u then "CVX"
else if Py.within "ndc" u then "NDC"
else if Py.within "cpt" u then "CPT"
else uri

/-- `AppCodeableConcept.coding_details`: loop over the codings, `continue`
on a falsy system or a falsy code, and collect cleaned entries. -/
def coding_details (c : CodeableConcept) : List CodingDetail :=
c.codings.filterMap (fun cd =>
  if Py.truthyS cd.system && Py.truthyS cd.code then
    some ⟨clean_system_name (cd.system.getD ""), cd.code.getD "", cd.display⟩
  else none)

/-- `AppCodeableConcept.bind_to`: first coding with a truthy code whose
lowercased code is a value of the enum (`ofCode`); `None` when the coding
list is empty or nothing matches. `ofCode` plays the role of the Python
`EnumType(value)` constructor returning `None` instead of `ValueError`. -/
def bind_to {ε : Type} (ofCode : String → Option ε) (c : CodeableConcept) : Option ε :=
c.codings.findSome? (fun cd =>
  if Py.truthyS cd.code then ofCode (Py.lowerStr (cd.code.getD "")) else none)

/-- The `"[{system}: {code}]"` rendering shared by the adapters, joined with
spaces and prefixed by one space when non-empty (`simple_code_str` shape). -/
def codesStr (details : List CodingDetail) : String :=
if details.isEmpty then ""
else " " ++ String.intercalate " " (details.map (fun c => "[" ++ c.system ++ ": " ++ c.code ++ "]"))

end AppCodeableConcept

/-- `ConditionClinicalStatus` enum of `condition.py`. -/
inductive ConditionClinicalStatus where
| active | recurrence | relapse | inactive | remission | resolved | unknown
deriving DecidableEq, Repr

/-- The Python `ConditionClinicalStatus(value)` constructor, `None` on `ValueError`. -/
def ConditionClinicalStatus.ofCode : String → Option ConditionClinicalStatus
| "active" => some .active
| "recurrence" => some .recurrence
| "relapse" => some .relapse
| "inactive" => some .inactive
| "remission" => some .remission
| "resolved" => some .resolved
| "unknown" => some .unknown
| _ => none

/-- `ConditionVerificationStatus` enum of `condition.py`. -/
inductive ConditionVerificationStatus where
| unconfirmed | provisional | differential | confirmed | refuted | enteredInError
deriving DecidableEq, Repr

/-- The Python `ConditionVerificationStatus(value)` constructor. -/
def ConditionVerificationStatus.ofCode : String → Option ConditionVerificationStatus
| "unconfirmed" => some .unconfirmed
| "provisional" => some .provisional
| "differential" => some .differential
| "confirmed" => some .confirmed
| "refuted" => some .refuted
| "entered-in-error" => some .enteredInError
| _ => none

/-- `DeviceStatus` enum of `device.py`. -/
inductive DeviceStatus where
| active | inactive | enteredInError | unknown
deriving DecidableEq, Repr

/-- The Python `DeviceStatus(value)` constructor. -/
def DeviceStatus.ofCode : String → Option DeviceStatus
| "active" => some .active
| "inactive" => some .inactive
| "entered-in-error" => some .enteredInError
| "unknown" => some .unknown
| _ => none

/-- `AllergyClinicalStatus` enum of `allergyIntolerance.py`. -/
inductive AllergyClinicalStatus where
| active | inactive | resolved
deriving DecidableEq, Repr

/-- The Python `AllergyClinicalStatus(value)` constructor. -/
def AllergyClinicalStatus.ofCode : String → Option AllergyClinicalStatus
| "active" => some .active
| "inactive" => some .inactive
| "resolved" => some .resolved
| _ => none

/-- `AllergyVerificationStatus` enum of `allergyIntolerance.py`. -/
inductive AllergyVerificationStatus where
| unconfirmed | confirmed | refuted | enteredInError
deriving DecidableEq, Repr

/-- The Python `AllergyVerificationStatus(value)` constructor. -/
def AllergyVerificationStatus.ofCode : String → Option AllergyVerificationStatus
| "unconfirmed" => some .unconfirmed
| "confirmed" => some .confirmed
| "refuted" => some .refuted
| "entered-in-error" => some .enteredInError
| _ => none

/-- `AllergyType` enum of `allergyIntolerance.py`. -/
inductive AllergyType where
| allergy | intolerance
deriving DecidableEq, Repr

/-- The Python `AllergyType(value)` constructor. -/
def AllergyType.ofCode : String → Option AllergyType
| "allergy" => some .allergy
| "intolerance" => some .intolerance
| _ => none

/-- `AllergyCategory` enum of `allergyIntolerance.py`. -/
inductive AllergyCategory where
| food | medication | environment | biologic
deriving DecidableEq, Repr

/-- The Python `AllergyCategory(value)` constructor. -/
def AllergyCategory.ofCode : String → Option AllergyCategory
| "food" => some .food
| "medication" => some .medication
| "environment" => some .environment
| "biologic" => some .biologic
| _ => none

/-- `AllergyCriticality` enum of `allergyIntolerance.py`. -/
inductive AllergyCriticality where
| low | high | unableToAssess
deriving DecidableEq, Repr

/-- The Python `AllergyCriticality(value)` constructor. -/
def AllergyCriticality.ofCode : String → Option AllergyCriticality
| "low" => some .low
| "high" => some .high
| "unable-to-assess" => some .unableToAssess
| _ => none

/-- The Python `.value` string of an `AllergyCriticality` member. -/
def AllergyCriticality.value : AllergyCriticality → String
| .low => "low"
| .high => "high"
| .unableToAssess => "unable-to-assess"

/-- `CarePlanStatus` enum of `carePlan.py`. -/
inductive CarePlanStatus where
| draft | active | onHold | revoked | completed | enteredInError | unknown
deriving DecidableEq, Repr

/-- The Python `CarePlanStatus(value)` constructor. -/
def CarePlanStatus.ofCode : String → Option CarePlanStatus
| "draft" => some .draft
| "active" => some .active
| "on-hold" => some .onHold
| "revoked" => some .revoked
| "completed" => some .completed
| "entered-in-error" => some .enteredInError
| "unknown" => some .unknown
| _ => none

/-- `CarePlanActivityStatus` enum of `carePlan.py`. -/
inductive CarePlanActivityStatus where
| notStarted | scheduled | inProgress | onHold | completed | cancelled | stopped
| unknown | enteredInError
deriving DecidableEq, Repr

/-- The Python `CarePlanActivityStatus(value)` constructor. -/
def CarePlanActivityStatus.ofCode : String → Option CarePlanActivityStatus
| "not-started" => some .notStarted
| "scheduled" => some .scheduled
| "in-progress" => some .inProgress
| "on-hold" => some .onHold
| "completed" => some .completed
| "cancelled" => some .cancelled
| "stopped" => some .stopped
| "unknown" => some .unknown
| "entered-in-error" => some .enteredInError
| _ => none

/-- The Python `.value` string of a `CarePlanActivityStatus` member. -/
def CarePlanActivityStatus.value : CarePlanActivityStatus → String
| .notStarted => "not-started"
| .scheduled => "scheduled"
| .inProgress => "in-progress"
| .onHold => "on-hold"
| .completed => "completed"
| .cancelled => "cancelled"
| .stopped => "stopped"
| .unknown => "unknown"
| .enteredInError => "entered-in-error"

/-- `ObservationStatus` enum of `diagnostics/enum.py`. -/
inductive ObservationStatus where
| registered | preliminary | final | amended | corrected | cancelled
| enteredInError | unknown
deriving DecidableEq, Repr

/-- The Python `ObservationStatus(value)` constructor. -/
def ObservationStatus.ofCode : String → Option ObservationStatus
| "registered" => some .registered
| "preliminary" => some .preliminary
| "final" => some .final
| "amended" => some .amended
| "corrected" => some .corrected
| "cancelled" => some .cancelled
| "entered-in-error" => some .enteredInError
| "unknown" => some .unknown
| _ => none

/-- `ObservationCategory` enum of `diagnostics/enum.py`. -/
inductive ObservationCategory where
| socialHistory | vitalSigns | imaging | laboratory | procedure | survey
| exam | therapy | activity | unknown
deriving DecidableEq, Repr

/-- `DiagnosticReportStatus` enum of `diagnosticReport.py`. -/
inductive DiagnosticReportStatus where
| registered | partialR | preliminary | final | amended | corrected | appended
| cancelled | enteredInError | unknown
deriving DecidableEq, Repr

/-- The Python `DiagnosticReportStatus(value)` constructor. -/
def DiagnosticReportStatus.ofCode : String → Option DiagnosticReportStatus
| "registered" => some .registered
| "partial" => some .partialR
| "preliminary" => some .preliminary
| "final" => some .final
| "amended" => some .amended
| "corrected" => some .corrected
| "appended" => some .appended
| "cancelled" => some .cancelled
| "entered-in-error" => some .enteredInError
| "unknown" => some .unknown
| _ => none

/-- `DocumentReferenceStatus` enum of `documentReference.py`. -/
inductive DocumentReferenceStatus where
| current | superseded | enteredInError
deriving DecidableEq, Repr

/-- The Python `DocumentReferenceStatus(value)` constructor. -/
def DocumentReferenceStatus.ofCode : String → Option DocumentReferenceStatus
| "current" => some .current
| "superseded" => some .superseded
| "entered-in-error" => some .enteredInError
| _ => none

/-- `MedicationRequestStatus` enum of `medicationRequests.py`. -/
inductive MedicationRequestStatus where
| active | onHold | cancelled | completed | enteredInError | stopped | draft | unknown
deriving DecidableEq, Repr

/-- The Python `MedicationRequestStatus(value)` constructor. -/
def MedicationRequestStatus.ofCode : String → Option MedicationRequestStatus
| "active" => some .active
| "on-hold" => some .onHold
| "cancelled" => some .cancelled
| "completed" => some .completed
| "entered-in-error" => some .enteredInError
| "stopped" => some .stopped
| "draft" => some .draft
| "unknown" => some .unknown
| _ => none

/-- `Gender` enum of `patient.py`. -/
inductive Gender where
| male | female | other | unknown
deriving DecidableEq, Repr

/-- The Python `Gender(value)` constructor. -/
def Gender.ofCode : String → Option Gender
| "male" => some .male
| "female" => some .female
| "other" => some .other
| "unknown" => some .unknown
| _ => none

/-- The Python `.value` string of a `Gender` member. -/
def Gender.value : Gender → String
| .male => "male"
| .female => "female"
| .other => "other"
| .unknown => "unknown"

/-- The fields of a FHIR `Condition` resource read by `AppCondition`. -/
structure ConditionR where
  clinicalStatus : Option CodeableConcept
  verificationStatus : Option CodeableConcept
  code : Option CodeableConcept
  onsetDateTime : Option PyDate
  abatementDateTime : Option PyDate
deriving DecidableEq, Repr

namespace AppCondition

/-- `AppCondition.clinical_status`: `None` when absent, else `bind_to` over the
clinical-status concept. -/
def clinical_status (c : ConditionR) : Option ConditionClinicalStatus :=
c.clinicalStatus.bind (AppCodeableConcept.bind_to ConditionClinicalStatus.ofCode)

/-- `AppCondition.verification_status`. -/
def verification_status (c : ConditionR) : Option ConditionVerificationStatus :=
c.verificationStatus.bind (AppCodeableConcept.bind_to ConditionVerificationStatus.ofCode)

/-- `AppCondition.code_text`. -/
def code_text (c : ConditionR) : Option String :=
c.code.bind AppCodeableConcept.readable_value

/-- `AppCondition.code_details`. -/
def code_details (c : ConditionR) : List CodingDetail :=
(c.code.map AppCodeableConcept.coding_details).getD []

/-- `AppCondition.onset_date`. -/
def onset_date (c : ConditionR) : Option PyDate :=
c.onsetDateTime

/-- `AppCondition.to_prompt_string`: name (with `Unknown Condition` fallback),
Recurrence/Relapse nuance, `(Unconfirmed)` flag, `[Onset: ...]`, codes. -/
def to_prompt_string (c : ConditionR) : String :=
let name := if Py.truthyS (code_text c) then (code_text c).getD "" else "Unknown Condition"
let status_nuance :=
  if clinical_status c = some .relapse then " (Relapse)"
  else if clinical_status c = some .recurrence then " (Recurrence)"
  else ""
let ver_str := if verification_status c = some .unconfirmed then " (Unconfirmed)" else ""
let date_str :=
  match onset_date c with
  | some d => " [Onset: " ++ d.strftime ++ "]"
  | none => ""
"- " ++ name ++ status_nuance ++ ver_str ++ date_str ++ AppCodeableConcept.codesStr (code_details c)

end AppCondition

/-- The fields of a FHIR `Device` resource read by `AppDevice` (a
`deviceName` entry contributes only its optional `name`). -/
structure DeviceR where
  status : Option String
  deviceName : List (Option String)
  type : Option CodeableConcept
deriving DecidableEq, Repr

namespace AppDevice

/-- `AppDevice.status`: `None` when the raw code is falsy or not a
`DeviceStatus` value. -/
def status (d : DeviceR) : Option DeviceStatus :=
if Py.truthyS d.status then DeviceStatus.ofCode (d.status.getD "") else none

/-- `AppDevice.device_names`: truthy names joined with `", "`; `None` when
the list is empty or no name is truthy. -/
def device_names (d : DeviceR) : Option String :=
if d.deviceName.isEmpty then none
else
  let names := (d.deviceName.filter Py.truthyS).map (fun n => n.getD "")
  if names.isEmpty then none else some (String.intercalate ", " names)

/-- `AppDevice.type_text`. -/
def type_text (d : DeviceR) : Option String :=
d.type.bind AppCodeableConcept.readable_value

/-- `AppDevice.type_details`. -/
def type_details (d : DeviceR) : List CodingDetail :=
(d.type.map AppCodeableConcept.coding_details).getD []

/-- `AppDevice.to_prompt_string`: type text plus friendly name when
case-insensitively different, with `Unknown Device` fallback, then codes. -/
def to_prompt_string (d : DeviceR) : String :=
let standard_name := type_text d
let friendly_name := device_names d
let display_name :=
  if Py.truthyS standard_name ∧ Py.truthyS friendly_name
      ∧ Py.lowerStr (standard_name.getD "") ≠ Py.lowerStr (friendly_name.getD "") then
    (standard_name.getD "") ++ " (" ++ (friendly_name.getD "") ++ ")"
  else if Py.truthyS standard_name then standard_name.getD ""
  else if Py.truthyS friendly_name then friendly_name.getD ""
  else "Unknown Device"
"- " ++ display_name ++ AppCodeableConcept.codesStr (type_details d)

end AppDevice

/-- The fields of a FHIR `AllergyIntolerance` resource read by
`AppAllergyIntolerance` (`category` is a list of raw code strings). -/
structure AllergyR where
  clinicalStatus : Option CodeableConcept
  verificationStatus : Option CodeableConcept
  type : Option String
  category : List (Option String)
  criticality : Option String
  code : Option CodeableConcept
deriving DecidableEq, Repr

namespace AppAllergyIntolerance

/-- `AppAllergyIntolerance.clinical_status`. -/
def clinical_status (a : AllergyR) : Option AllergyClinicalStatus :=
a.clinicalStatus.bind (AppCodeableConcept.bind_to AllergyClinicalStatus.ofCode)

/-- `AppAllergyIntolerance.verification_status`. -/
def verification_status (a : AllergyR) : Option AllergyVerificationStatus :=
a.verificationStatus.bind (AppCodeableConcept.bind_to AllergyVerificationStatus.ofCode)

/-- `AppAllergyIntolerance.type`: raw code through the enum constructor. -/
def typeE (a : AllergyR) : Option AllergyType :=
if Py.truthyS a.type then AllergyType.ofCode (a.type.getD "") else none

/-- `AppAllergyIntolerance.category`: first category code that is an
`AllergyCategory` value (unrecognized codes are skipped). -/
def category (a : AllergyR) : Option AllergyCategory :=
if a.category.isEmpty then none
else a.category.findSome? (fun c => AllergyCategory.ofCode (c.getD ""))

/-- `AppAllergyIntolerance.criticality`. -/
def criticality (a : AllergyR) : Option AllergyCriticality :=
if Py.truthyS a.criticality then AllergyCriticality.ofCode (a.criticality.getD "") else none

/-- `AppAllergyIntolerance.code_text`. -/
def code_text (a : AllergyR) : Option String :=
a.code.bind AppCodeableConcept.readable_value

/-- `AppAllergyIntolerance.code_details`. -/
def code_details (a : AllergyR) : List CodingDetail :=
(a.code.map AppCodeableConcept.coding_details).getD []

/-- The Python `.value.capitalize()` of an `AllergyCategory` member. -/
def catCap : AllergyCategory → String
| .food => "Food"
| .medication => "Medication"
| .environment => "Environment"
| .biologic => "Biologic"

/-- The Python `.value.capitalize()` of an `AllergyType` member. -/
def typeCap : AllergyType → String
| .allergy => "Allergy"
| .intolerance => "Intolerance"

/-- `AppAllergyIntolerance.to_prompt_string`. -/
def to_prompt_string (a : AllergyR) : String :=
let name := if Py.truthyS (code_text a) then (code_text a).getD "" else "Unknown Substance"
let meta_parts :=
  ((category a).map catCap).toList ++ ((typeE a).map typeCap).toList
let meta_str :=
  if meta_parts.isEmpty then "" else " (" ++ String.intercalate " " meta_parts ++ ")"
let ver_str := if verification_status a = some .unconfirmed then " (Unconfirmed)" else ""
let crit_str :=
  if criticality a = some .high then " [CRITICAL/HIGH RISK]"
  else match criticality a with
    | some cr => " [CRITICAL " ++ cr.value ++ "]"
    | none => ""
"- " ++ name ++ meta_str ++ ver_str ++ crit_str ++ AppCodeableConcept.codesStr (code_details a)

end AppAllergyIntolerance

/-- The `detail` of one FHIR CarePlan activity. -/
structure CarePlanDetailR where
  code : Option CodeableConcept
  status : Option String
deriving DecidableEq, Repr

/-- One FHIR CarePlan `activity` entry. -/
structure CarePlanActivityR where
  detail : Option CarePlanDetailR
deriving DecidableEq, Repr

/-- The fields of a FHIR `CarePlan` resource read by `AppCarePlan`. -/
structure CarePlanR where
  status : Option String
  intent : Option String
  category : List CodeableConcept
  periodStart : Option PyDate
  periodEnd : Option PyDate
  activity : List CarePlanActivityR
deriving DecidableEq, Repr

/-- One entry of `AppCarePlan.activities_summary`. -/
structure CarePlanActivitySummary where
  text : String
  status : Option CarePlanActivityStatus
  codes : List CodingDetail
deriving DecidableEq, Repr

namespace AppCarePlan

/-- `AppCarePlan.status`. -/
def status (p : CarePlanR) : Option CarePlanStatus :=
if Py.truthyS p.status then CarePlanStatus.ofCode (p.status.getD "") else none

/-- `AppCarePlan.category_text`: first truthy readable value among the
category concepts. -/
def category_text (p : CarePlanR) : Option String :=
if p.category.isEmpty then none
else p.category.findSome? (fun cat =>
  let v := AppCodeableConcept.readable_value cat
  if Py.truthyS v then v else none)

/-- `AppCarePlan.start_date`. -/
def start_date (p : CarePlanR) : Option PyDate :=
p.periodStart

/-- `AppCarePlan.activities_summary`: keep activities with a detail and a
truthy readable activity text; bind the raw activity status to the enum. -/
def activities_summary (p : CarePlanR) : List CarePlanActivitySummary :=
p.activity.filterMap (fun act =>
  match act.detail with
  | none => none
  | some detail =>
    let act_text := detail.code.bind AppCodeableConcept.readable_value
    if Py.truthyS act_text then
      some { text := act_text.getD ""
             status := if Py.truthyS detail.status then
                 CarePlanActivityStatus.ofCode (detail.status.getD "") else none
             codes := (detail.code.map AppCodeableConcept.coding_details).getD [] }
    else none)

/-- The per-activity line loop of `AppCarePlan.to_prompt_string`, with its
`seen_activities` set deduplicating on the activity text. -/
def activityLines : List CarePlanActivitySummary → List String → List String
| [], _ => []
| act :: rest, seen =>
  if act.text ≠ "" ∧ act.text ∉ seen then
    let status_str := match act.status with
      | some st => " (" ++ st.value ++ ")"
      | none => ""
    ("- " ++ act.text ++ status_str ++ AppCodeableConcept.codesStr act.codes)
      :: activityLines rest (act.text :: seen)
  else activityLines rest seen

/-- `AppCarePlan.to_prompt_string`: empty when there is no renderable
activity, else a bold header line plus deduplicated activity lines. -/
def to_prompt_string (p : CarePlanR) : String :=
let acts := activities_summary p
if acts.isEmpty then ""
else
  let header_name := if Py.truthyS (category_text p) then (category_text p).getD ""
    else "General Care Plan"
  let date_info := match start_date p with
    | some d => " (Start: " ++ d.strftime ++ ")"
    | none => ""
  let header_line := "**" ++ header_name ++ "**" ++ date_info
  let lines := activityLines acts []
  if lines.isEmpty then ""
  else header_line ++ "\n" ++ String.intercalate "\n" lines

end AppCarePlan

/-- The observation fields used by the aggregate. The raw `status` and
`effectiveDateTime` feed the accessors of `observation.py`; `code_text`,
`category` and `prompt_string` stand for accessors of the observation
adapter that the synthesis calls but whose module is not under `src/`
(they are modelled from the spec, see the accessor doc comments). -/
structure ObservationR where
  status : Option String
  effectiveDateTime : Option PyDate
  code_text : Option String
  category : Option ObservationCategory
  prompt_string : String
deriving DecidableEq, Repr

namespace AppObservation

/-- `AppObservation.status` of `observation.py`: the `UNKNOWN` member both
when the raw code is falsy and when it is not an `ObservationStatus` value. -/
def status (o : ObservationR) : ObservationStatus :=
if Py.truthyS o.status then (ObservationStatus.ofCode (o.status.getD "")).getD .unknown
else .unknown

/-- `AppObservation.effective_date`. -/
def effective_date (o : ObservationR) : Option PyDate :=
o.effectiveDateTime

/-- Modelled from the spec: `AppObservation.code_text` (the readable label of
the observation's `code` concept) is called by the synthesis but its module
is missing from `src/`; the record field carries its value. -/
def code_textA (o : ObservationR) : Option String :=
o.code_text

/-- Modelled from the spec: `AppObservation.category` (the observation's
bucketing category enum) is called by the synthesis but its module is
missing from `src/`; the record field carries its value. -/
def categoryA (o : ObservationR) : Option ObservationCategory :=
o.category

/-- Modelled from the spec: `AppObservation.to_prompt_string` (one formatted
entry per observation) is called by the synthesis but its module is missing
from `src/`; the record field carries its value. -/
def to_prompt_string (o : ObservationR) : String :=
o.prompt_string

end AppObservation

/-- One FHIR `Attachment` as read by the report/document adapters. -/
structure AttachmentR where
  contentType : Option String
  data : Option String
deriving DecidableEq, Repr

/-- The fields of a FHIR `DiagnosticReport` resource read by
`AppDiagnosticReport`. -/
structure DiagnosticReportR where
  status : Option String
  code : Option CodeableConcept
  effectiveDateTime : Option PyDate
  conclusion : Option String
  presentedForm : List AttachmentR
deriving DecidableEq, Repr

/-- Strip every line, drop blank lines, and rejoin with newlines (the
attachment clean-up shared by both attachment-decoding adapters). -/
def cleanLines (raw : String) : String :=
String.intercalate "\n" (((Py.splitLines raw).map Py.strip).filter (fun l => l ≠ ""))

namespace AppDiagnosticReport

/-- `AppDiagnosticReport.status`. -/
def status (r : DiagnosticReportR) : Option DiagnosticReportStatus :=
if Py.truthyS r.status then DiagnosticReportStatus.ofCode (r.status.getD "") else none

/-- `AppDiagnosticReport.code_text`. -/
def code_text (r : DiagnosticReportR) : Option String :=
r.code.bind AppCodeableConcept.readable_value

/-- `AppDiagnosticReport.effective_date`. -/
def effective_date (r : DiagnosticReportR) : Option PyDate :=
r.effectiveDateTime

/-- `AppDiagnosticReport.report_text`: the `conclusion` when truthy, else the
first `text/plain` attachment whose base64 payload decodes, cleaned; `None`
when nothing decodes. `dec` models `base64.b64decode` followed by UTF-8
decoding, with `none` standing for the exception path (which the source
catches per attachment and turns into `continue`). -/
def report_text (dec : String → Option String) (r : DiagnosticReportR) : Option String :=
if Py.truthyS r.conclusion then r.conclusion
else r.presentedForm.findSome? (fun att =>
  if ¬ (Py.truthyS att.contentType ∧ Py.startsWithB (att.contentType.getD "") "text/plain") then none
  else if ¬ Py.truthyS att.data then none
  else match dec (att.data.getD "") with
    | none => none
    | some raw => some (cleanLines raw))

/-- `AppDiagnosticReport.to_prompt_string`: empty when there is no truthy
text content; else a titled block with consecutive duplicate lines removed
and two-space indentation. -/
def to_prompt_string (dec : String → Option String) (r : DiagnosticReportR) : String :=
let text_content := report_text dec r
if ¬ Py.truthyS text_content then ""
else
  let title := if Py.truthyS (code_text r) then (code_text r).getD "" else "Clinical Note"
  let lines := ((Py.splitLines (text_content.getD "")).map Py.strip).filter (fun l => l ≠ "")
  let cleaned_lines := Py.collapseConsecDups lines ""
  let content := String.intercalate "\n  " cleaned_lines
  "**" ++ title ++ "**:\n  " ++ content ++ "\n"

end AppDiagnosticReport

/-- One `content` entry of a FHIR `DocumentReference`. -/
structure DocContentR where
  attachment : Option AttachmentR
deriving DecidableEq, Repr

/-- The fields of a FHIR `DocumentReference` resource read by
`AppDocumentReference`. -/
structure DocumentReferenceR where
  status : Option String
  type : Option CodeableConcept
  category : List CodeableConcept
  date : Option PyDate
  content : List DocContentR
deriving DecidableEq, Repr

/-- A Python exception escaping an adapter accessor. -/
inductive PyErr where
| attributeError
deriving DecidableEq, Repr

namespace AppDocumentReference

/-- `AppDocumentReference.status`. -/
def status (d : DocumentReferenceR) : Option DocumentReferenceStatus :=
if Py.truthyS d.status then DocumentReferenceStatus.ofCode (d.status.getD "") else none

/-- `AppDocumentReference.type_text`. -/
def type_text (d : DocumentReferenceR) : Option String :=
d.type.bind AppCodeableConcept.readable_value

/-- `AppDocumentReference.category_text`. -/
def category_text (d : DocumentReferenceR) : Option String :=
if d.category.isEmpty then none
else d.category.findSome? (fun cat =>
  let v := AppCodeableConcept.readable_value cat
  if Py.truthyS v then v else none)

/-- The attachment loop of `AppDocumentReference.content_text`. An attachment
with truthy `data` but an absent `contentType` hits
`attachment.contentType.startswith(...)` on `None` and raises
`AttributeError` (the `try` block only guards the decode below). -/
def contentLoop (dec : String → Option String) :
    List DocContentR → Except PyErr (Option String)
| [] => .ok none
| entry :: rest =>
  match entry.attachment with
  | none => contentLoop dec rest
  | some att =>
    if ¬ Py.truthyS att.data then contentLoop dec rest
    else match att.contentType with
      | none => .error .attributeError
      | some ct =>
        if ¬ Py.startsWithB ct "text/" then contentLoop dec rest
        else match dec (att.data.getD "") with
          | none => contentLoop dec rest
          | some raw => .ok (some (cleanLines raw))

/-- `AppDocumentReference.content_text`: first decodable `text/*` attachment,
cleaned; `None` when the content list is empty or nothing decodes; raises
`AttributeError` on an attachment with data but no content type. -/
def content_text (dec : String → Option String) (d : DocumentReferenceR) :
    Except PyErr (Option String) :=
if d.content.isEmpty then .ok none else contentLoop dec d.content

/-- `AppDocumentReference.to_prompt_string` (propagating any exception of
`content_text`): empty when there is no truthy content, else a titled block
with each content line indented by two spaces. -/
def to_prompt_string (dec : String → Option String) (d : DocumentReferenceR) :
    Except PyErr String :=
match content_text dec d with
| .error e => .error e
| .ok text_content =>
  if ¬ Py.truthyS text_content then .ok ""
  else
    let title := if Py.truthyS (type_text d) then (type_text d).getD ""
      else if Py.truthyS (category_text d) then (category_text d).getD "" else ""
    let header_line := "- " ++ title ++ ":"
    let indented := (Py.splitLines (text_content.getD "")).map (fun l => "  " ++ l)
    .ok (header_line ++ "\n" ++ String.intercalate "\n" indented ++ "\n")

end AppDocumentReference

/-- The fields of a FHIR `Medication` resource read by `AppMedication`. -/
structure MedicationR where
  code : Option CodeableConcept
deriving DecidableEq, Repr

namespace AppMedication

/-- `AppMedication.code_text`. -/
def code_text (m : MedicationR) : Option String :=
m.code.bind AppCodeableConcept.readable_value

/-- `AppMedication.code_details`. -/
def code_details (m : MedicationR) : List CodingDetail :=
(m.code.map AppCodeableConcept.coding_details).getD []

/-- `AppMedication.simple_code_str`. -/
def simple_code_str (m : MedicationR) : String :=
AppCodeableConcept.codesStr (code_details m)

/-- `AppMedication.to_prompt_string`. -/
def to_prompt_string (m : MedicationR) : String :=
(if Py.truthyS (code_text m) then (code_text m).getD "" else "Unknown Medication")
  ++ simple_code_str m

end AppMedication

/-- A FHIR `Quantity` with its optional decimal value. -/
structure QuantityR where
  value : Option PyDecimal
  unit : Option String
deriving DecidableEq, Repr

/-- One `doseAndRate` entry of a dosage instruction. -/
structure DoseRateR where
  doseQuantity : Option QuantityR
deriving DecidableEq, Repr

/-- The `timing.repeat` fields read by the dosage humanizer. -/
structure RepeatR where
  frequency : Option Nat
  period : Option PyDecimal
  periodUnit : Option String
deriving DecidableEq, Repr

/-- A FHIR `Timing` (structured repeat plus coded fallback). -/
structure TimingR where
  rep : Option RepeatR
  code : Option CodeableConcept
deriving DecidableEq, Repr

/-- One `dosageInstruction` entry of a `MedicationRequest`. -/
structure DosageR where
  text : Option String
  doseAndRate : List DoseRateR
  timing : Option TimingR
  asNeededBoolean : Option Bool
deriving DecidableEq, Repr

/-- The fields of a FHIR `MedicationRequest` resource read by
`AppMedicationRequest`. -/
structure MedicationRequestR where
  status : Option String
  intent : Option String
  authoredOn : Option PyDate
  medicationReference : Option (Option String)
  medicationCodeableConcept : Option CodeableConcept
  dosageInstruction : List DosageR
deriving DecidableEq, Repr

namespace AppMedicationRequest

/-- `AppMedicationRequest.status`. -/
def status (m : MedicationRequestR) : Option MedicationRequestStatus :=
if Py.truthyS m.status then MedicationRequestStatus.ofCode (m.status.getD "") else none

/-- `AppMedicationRequest.authored_on`. -/
def authored_on (m : MedicationRequestR) : Option PyDate :=
m.authoredOn

/-- `AppMedicationRequest.medication_reference_id`:
`reference.split("/")[-1]` when the reference and its string are truthy. -/
def medication_reference_id (m : MedicationRequestR) : Option String :=
match m.medicationReference with
| none => none
| some r =>
  if Py.truthyS r then
    some ((((Py.splitOnChar '/' (r.getD "").data).map String.mk)).getLastD "")
  else none

/-- `AppMedicationRequest.medication_concept_text`. -/
def medication_concept_text (m : MedicationRequestR) : Option String :=
m.medicationCodeableConcept.bind AppCodeableConcept.readable_value

/-- `AppMedicationRequest.medication_concept_details`. -/
def medication_concept_details (m : MedicationRequestR) : List CodingDetail :=
(m.medicationCodeableConcept.map AppCodeableConcept.coding_details).getD []

/-- The dose part of one dosage instruction: the value of the first
`doseAndRate` entry whose `doseQuantity` is present with a non-`None` value,
rendered without a decimal point when integral. -/
def dosePart (d : DosageR) : Option String :=
d.doseAndRate.findSome? (fun dr =>
  dr.doseQuantity.bind (fun q =>
    q.value.map (fun v =>
      if v.isIntegral then toString v.toInt else v.pyStr)))

/-- The unit map of the generic timing fallback (`h`, `d`, `wk`, `mo`). -/
def unitWord (u : String) : String :=
if u = "h" then "hour" else if u = "d" then "day"
else if u = "wk" then "week" else if u = "mo" then "month" else u

/-- The structured timing translation of `dosage_text` when `frequency`,
`period` and `periodUnit` are all truthy (the nested rule table of the
source, in source order). -/
def timingPhrase (freq : Nat) (period : PyDecimal) (unit : String) : String :=
if freq = 1 ∧ ((period.eqNat 1 ∧ unit = "d") ∨ (period.eqNat 24 ∧ unit = "h")) then
  "Once a day"
else if freq = 2 ∧ ((period.eqNat 1 ∧ unit = "d") ∨ (period.eqNat 24 ∧ unit = "h")) then
  "Twice a day"
else if freq = 3 ∧ ((period.eqNat 1 ∧ unit = "d") ∨ (period.eqNat 24 ∧ unit = "h")) then
  "3 times a day"
else if freq = 1 ∧ unit = "h" then
  "Every " ++ toString period.toInt ++ " hours"
else
  let u_str := if period.gtOne then unitWord unit ++ "s" else unitWord unit
  toString freq ++ " times per " ++ toString period.toInt ++ " " ++ u_str

/-- The timing part of one dosage instruction: the structured translation
when a repeat with truthy frequency/period/unit is present; when the timing
carries no repeat, the truthy readable value of its code; nothing otherwise. -/
def timingPart (d : DosageR) : Option String :=
match d.timing with
| none => none
| some t =>
  match t.rep with
  | some rep =>
    if Py.truthyN rep.frequency ∧ (rep.period.map PyDecimal.truthy).getD false
        ∧ Py.truthyS rep.periodUnit then
      some (timingPhrase (rep.frequency.getD 0) (rep.period.getD ⟨0, 0⟩)
        (rep.periodUnit.getD ""))
    else none
  | none =>
    match t.code with
    | none => none
    | some cc =>
      let t_text := AppCodeableConcept.readable_value cc
      if Py.truthyS t_text then t_text else none

/-- The line contributed by one dosage instruction: the free text verbatim
when truthy, else the comma-joined parts (dose, timing, `As needed`),
nothing when no part was assembled. -/
def dosageLine (d : DosageR) : Option String :=
if Py.truthyS d.text then d.text
else
  let parts := (dosePart d).toList ++ (timingPart d).toList
    ++ (if d.asNeededBoolean = some true then ["As needed"] else [])
  if parts.isEmpty then none else some (String.intercalate ", " parts)

/-- `AppMedicationRequest.dosage_text`: `None` when there is no dosage
instruction or no line was assembled, else the lines joined with `"; "`. -/
def dosage_text (m : MedicationRequestR) : Option String :=
if m.dosageInstruction.isEmpty then none
else
  let all_lines := m.dosageInstruction.filterMap dosageLine
  if all_lines.isEmpty then none else some (String.intercalate "; " all_lines)

/-- `AppMedicationRequest.to_prompt_string`: medication name resolved via the
reference map or the inline concept, authored-on date, on-hold flag, and the
indented dosage line. -/
def to_prompt_string (medication_map : List (String × MedicationR))
    (m : MedicationRequestR) : String :=
let med_name_str :=
  match medication_reference_id m with
  | some rid =>
    if rid ≠ "" ∧ (medication_map.lookup rid).isSome then
      AppMedication.to_prompt_string ((medication_map.lookup rid).getD ⟨none⟩)
    else if Py.truthyS (medication_concept_text m) then
      (medication_concept_text m).getD ""
        ++ AppCodeableConcept.codesStr (medication_concept_details m)
    else "Unknown Medication"
  | none =>
    if Py.truthyS (medication_concept_text m) then
      (medication_concept_text m).getD ""
        ++ AppCodeableConcept.codesStr (medication_concept_details m)
    else "Unknown Medication"
let date_str := match authored_on m with
  | some d => " (Start: " ++ d.strftime ++ ")"
  | none => ""
let status_warning := if status m = some .onHold then " [STATUS: ON-HOLD/SUSPENDED]" else ""
let dosage_info := match dosage_text m with
  | some t => if t ≠ "" then "\n  Sig: " ++ t else ""
  | none => ""
"- " ++ med_name_str ++ date_str ++ status_warning ++ dosage_info

end AppMedicationRequest

/-- The immunization fields used by the aggregate. `status` feeds the raw
accessor of `immunization.py`; `code_text`, `simple_code_str` and
`occurrence_date` stand for accessors the synthesis calls but whose module
is not under `src/` (modelled from the spec, see the accessor doc comments). -/
structure ImmunizationR where
  status : Option String
  code_text : Option String
  simple_code_str : String
  occurrence_date : Option PyDate
deriving DecidableEq, Repr

namespace AppImmunization

/-- `AppImmunization.status` of `immunization.py`: the raw status code is
returned unchanged (no enum binding, no unknown sentinel). -/
def status (i : ImmunizationR) : Option String :=
i.status

/-- Modelled from the spec: `AppImmunization.code_text` (readable vaccine
label) is called by the synthesis but its module is missing from `src/`. -/
def code_textA (i : ImmunizationR) : Option String :=
i.code_text

/-- Modelled from the spec: `AppImmunization.simple_code_str` (the
`" [SYS: code]..."` string) is called by the synthesis but its module is
missing from `src/`. -/
def simple_code_strA (i : ImmunizationR) : String :=
i.simple_code_str

/-- Modelled from the spec: `AppImmunization.occurrence_date` is called by
the synthesis but its module is missing from `src/`. -/
def occurrence_dateA (i : ImmunizationR) : Option PyDate :=
i.occurrence_date

end AppImmunization

/-- The procedure fields used by the aggregate. `status` feeds the raw
accessor of `procedure.py`; `code_text`, `simple_code_str`, `start_date`,
`end_date` and `prompt_string` stand for accessors the synthesis calls but
whose module is not under `src/` (modelled from the spec). -/
structure ProcedureR where
  status : Option String
  code_text : Option String
  simple_code_str : String
  start_date : Option PyDate
  end_date : Option PyDate
  prompt_string : String
deriving DecidableEq, Repr

namespace AppProcedure

/-- `AppProcedure.status` of `procedure.py`: the raw status code is returned
unchanged (no enum binding, no unknown sentinel). -/
def status (p : ProcedureR) : Option String :=
p.status

/-- Modelled from the spec: `AppProcedure.to_prompt_string` is called by the
synthesis for undated procedures but its module is missing from `src/`. -/
def to_prompt_string (p : ProcedureR) : String :=
p.prompt_string

end AppProcedure

/-- The demographic fields of the FHIR `Patient` resource read by the
synthesis. -/
structure PatientR where
  gender : Option String
  birthDate : Option PyDate
deriving DecidableEq, Repr

/-- The `AppPatient` aggregate: the patient resource plus the ten owned
collections populated by the `add_*` mutators. -/
structure PatientState where
  resource : PatientR
  devices : List DeviceR
  allergies : List AllergyR
  care_plans : List CarePlanR
  conditions : List ConditionR
  procedures : List ProcedureR
  diagnostic_reports : List DiagnosticReportR
  document_references : List DocumentReferenceR
  observations : List ObservationR
  immunizations : List ImmunizationR
  medication_requests : List MedicationRequestR
deriving DecidableEq, Repr

namespace AppPatient

/-- `AppPatient.gender`: the raw gender code through the `Gender` enum,
`None` when falsy or unrecognized. -/
def gender (s : PatientState) : Option Gender :=
if Py.truthyS s.resource.gender then Gender.ofCode (s.resource.gender.getD "") else none

/-- `AppPatient.birth_date`. -/
def birth_date (s : PatientState) : Option PyDate :=
s.resource.birthDate

/-- The dates collected by `AppPatient.last_interaction_date`, in source
order: report effective dates, observation effective dates, procedure end
(else start) dates, authored-on dates, condition onsets. -/
def collectedDates (s : PatientState) : List PyDate :=
(s.diagnostic_reports.filterMap AppDiagnosticReport.effective_date)
++ (s.observations.filterMap AppObservation.effective_date)
++ (s.procedures.filterMap (fun p =>
     match p.end_date with
     | some d => some d
     | none => p.start_date))
++ (s.medication_requests.filterMap AppMedicationRequest.authored_on)
++ (s.conditions.filterMap AppCondition.onset_date)

/-- `AppPatient.last_interaction_date`: the maximum collected date, or
`date.today()` (the `today` parameter) when the patient has no dated
history. -/
def last_interaction_date (s : PatientState) (today : PyDate) : PyDate :=
match collectedDates s with
| [] => today
| d :: ds => Py.pyMaxFrom d ds

/-- `AppPatient.age`: `-1` without a birth date, else whole years between the
birth date and the simulated today, subtracting one when the birthday has
not yet occurred in the anchor year (Python tuple comparison
`(month, day) < (month, day)`). -/
def age (s : PatientState) (today : PyDate) : Int :=
match s.resource.birthDate with
| none => -1
| some born =>
  let simT := last_interaction_date s today
  (simT.year : Int) - (born.year : Int) -
    (if simT.month < born.month ∨ (simT.month = born.month ∧ simT.day < born.day)
     then 1 else 0)

/-- The `(Current Date: ...)` opening line of the context. -/
def currentDateLine (s : PatientState) (today : PyDate) : String :=
"(Current Date: " ++ (last_interaction_date s today).strftime ++ ")"

/-- The demographics parts of the context. -/
def demographicsParts (s : PatientState) (today : PyDate) : List String :=
let gender_str := match gender s with
  | some g => g.value
  | none => "Unknown"
let a := age s today
let age_str := if a ≥ 0 then toString a ++ " years old" else "Age unknown"
["### PATIENT PROFILE", "- Demographics: " ++ gender_str ++ ", " ++ age_str]

/-- The `ACTIVE DEVICES` section parts. -/
def devicesParts (devices : List DeviceR) : List String :=
let active := devices.filter (fun d => AppDevice.status d = some .active)
if active.isEmpty then ["\n### ACTIVE DEVICES\n- None"]
else "\n### ACTIVE DEVICES" :: active.map AppDevice.to_prompt_string

/-- The allergy filter of the synthesis: clinical status not
Inactive/Resolved and verification status not Refuted/Entered-in-error. -/
def keepAllergy (a : AllergyR) : Prop :=
AppAllergyIntolerance.clinical_status a ≠ some .inactive
∧ AppAllergyIntolerance.clinical_status a ≠ some .resolved
∧ AppAllergyIntolerance.verification_status a ≠ some .refuted
∧ AppAllergyIntolerance.verification_status a ≠ some .enteredInError

instance (a : AllergyR) : Decidable (keepAllergy a) := by
  unfold keepAllergy; infer_instance

/-- One labeled allergy subsection (`add_subsection`). -/
def allergySubsection (title : String) (items : List AllergyR) : List String :=
if items.isEmpty then []
else ("**" ++ title ++ "**") :: items.map AppAllergyIntolerance.to_prompt_string

/-- The `ALLERGIES & INTOLERANCES` section parts, with the four category
buckets in priority order. -/
def allergiesParts (allergies : List AllergyR) : List String :=
let active := allergies.filter (fun a => keepAllergy a)
if active.isEmpty then ["\n### ALLERGIES & INTOLERANCES\n- No known allergies"]
else
  let med := active.filter (fun a => AppAllergyIntolerance.category a = some .medication)
  let food := active.filter (fun a => AppAllergyIntolerance.category a = some .food)
  let env := active.filter (fun a => AppAllergyIntolerance.category a = some .environment)
  let other := active.filter (fun a =>
    AppAllergyIntolerance.category a ≠ some .food
    ∧ AppAllergyIntolerance.category a ≠ some .medication
    ∧ AppAllergyIntolerance.category a ≠ some .environment)
  "\n### ALLERGIES & INTOLERANCES"
    :: (allergySubsection "Medication/Drugs" med ++ allergySubsection "Food/Dietary" food
        ++ allergySubsection "Environment" env ++ allergySubsection "Other/Biologic" other)

/-- The `ACTIVE CARE PLANS & GOALS` section parts (plans rendering to an
empty string are skipped). -/
def carePlansParts (plans : List CarePlanR) : List String :=
let active := plans.filter (fun p => AppCarePlan.status p = some .active)
if active.isEmpty then []
else "\n### ACTIVE CARE PLANS & GOALS"
  :: (active.map AppCarePlan.to_prompt_string).filter (fun s => s ≠ "")

/-- The condition filter of the problem list: clinical status in
`[ACTIVE, RECURRENCE, RELAPSE, None]` and verification status not in
`[REFUTED, ENTERED_IN_ERROR]`. -/
def keepCondition (c : ConditionR) : Prop :=
(AppCondition.clinical_status c = some .active
 ∨ AppCondition.clinical_status c = some .recurrence
 ∨ AppCondition.clinical_status c = some .relapse
 ∨ AppCondition.clinical_status c = none)
∧ AppCondition.verification_status c ≠ some .refuted
∧ AppCondition.verification_status c ≠ some .enteredInError

instance (c : ConditionR) : Decidable (keepCondition c) := by
  unfold keepCondition; infer_instance

/-- The sort key of the problem list (`x.onset_date or datetime.min`). -/
def condKey (c : ConditionR) : PyDate :=
(AppCondition.onset_date c).getD PyDate.min

/-- The render-and-deduplicate loop of the problem list, with its
`seen_conditions` set. -/
def problemLoop : List ConditionR → List String → List String
| [], _ => []
| c :: cs, seen =>
  let s := AppCondition.to_prompt_string c
  if s ≠ "" ∧ s ∉ seen then s :: problemLoop cs (s :: seen)
  else problemLoop cs seen

/-- The `ACTIVE CONDITIONS (PROBLEM LIST)` section parts. -/
def conditionsParts (conds : List ConditionR) : List String :=
let active := conds.filter (fun c => keepCondition c)
if active.isEmpty then
  ["\n### ACTIVE CONDITIONS (PROBLEM LIST)\n- No active conditions reported"]
else "\n### ACTIVE CONDITIONS (PROBLEM LIST)" :: problemLoop (Py.sortByKey condKey active) []

/-- The procedure filter of the synthesis (raw status code against the
spec-modelled `ProcedureStatus` members `completed`, `in-progress`, plus
`None`). -/
def keepProcedure (p : ProcedureR) : Prop :=
AppProcedure.status p = some "completed" ∨ AppProcedure.status p = some "in-progress"
∨ AppProcedure.status p = none

instance (p : ProcedureR) : Decidable (keepProcedure p) := by
  unfold keepProcedure; infer_instance

/-- The grouped-procedure name (`p.code_text or "Unknown Procedure"`). -/
def procName (p : ProcedureR) : String :=
if Py.truthyS p.code_text then p.code_text.getD "" else "Unknown Procedure"

/-- One grouped procedure line: single date, all dates (≤ 5), or the
count-and-range compaction (> 5). -/
def renderProcGroup (k : String × String) (dates : List PyDate) : String :=
let ds := Py.sortByKey id dates
let date_display :=
  if ds.length = 1 then " [Date: " ++ (ds.getD 0 PyDate.min).strftime ++ "]"
  else if ds.length ≤ 5 then
    " (Dates: " ++ String.intercalate ", " (ds.map PyDate.strftime) ++ ")"
  else
    " (Count: " ++ toString ds.length ++ " occurrences, Range: "
      ++ (ds.getD 0 PyDate.min).strftime ++ " to " ++ (ds.getLastD PyDate.min).strftime ++ ")"
"- " ++ k.1 ++ date_display ++ k.2

/-- The `PROCEDURES HISTORY` section parts: grouped dated procedures in
first-seen key order, then undated renders deduplicated (`set`) and sorted. -/
def proceduresParts (procedures : List ProcedureR) : List String :=
let valid := procedures.filter (fun p => keepProcedure p)
if valid.isEmpty then []
else
  let grouped := Py.groupFold (valid.filterMap (fun p =>
    p.start_date.map (fun d => ((procName p, p.simple_code_str), d))))
  let undated := (valid.filter (fun p => p.start_date = none)).map AppProcedure.to_prompt_string
  "\n### PROCEDURES HISTORY"
    :: (grouped.map (fun g => renderProcGroup g.1 g.2)
        ++ (if undated.isEmpty then [] else Py.sortByKey id (Py.dedupFirst undated)))

/-- The grouped-immunization name (`imm.code_text or "Unknown Vaccine"`). -/
def immName (i : ImmunizationR) : String :=
if Py.truthyS i.code_text then i.code_text.getD "" else "Unknown Vaccine"

/-- One grouped immunization line: all dates when at most five, the
`(N doses, Latest: d)` compaction when more than five. -/
def renderImmGroup (k : String × String) (dates : List PyDate) : String :=
let ds := Py.sortByKey id dates
let date_display :=
  if ds.isEmpty then ""
  else if 5 < ds.length then
    " (" ++ toString ds.length ++ " doses, Latest: " ++ (ds.getLastD PyDate.min).strftime ++ ")"
  else " (Dates: " ++ String.intercalate ", " (ds.map PyDate.strftime) ++ ")"
"- " ++ k.1 ++ date_display ++ k.2

/-- The dated key–date pairs feeding the immunization grouping dictionary. -/
def immPairs (immunizations : List ImmunizationR) : List ((String × String) × PyDate) :=
(immunizations.filter (fun i => AppImmunization.status i = some "completed")).filterMap
  (fun i => i.occurrence_date.map (fun d => ((immName i, i.simple_code_str), d)))

/-- The `IMMUNIZATION HISTORY` section parts. -/
def immunizationsParts (immunizations : List ImmunizationR) : List String :=
let valid := immunizations.filter (fun i => AppImmunization.status i = some "completed")
if valid.isEmpty then []
else "\n### IMMUNIZATION HISTORY"
  :: (Py.groupFold (immPairs immunizations)).map (fun g => renderImmGroup g.1 g.2)

/-- The render-and-deduplicate loop of the medications section, with its
`seen_meds` set. -/
def medsLoop (medication_map : List (String × MedicationR)) :
    List MedicationRequestR → List String → List String
| [], _ => []
| m :: ms, seen =>
  let s := AppMedicationRequest.to_prompt_string medication_map m
  if s ≠ "" ∧ s ∉ seen then s :: medsLoop medication_map ms (s :: seen)
  else medsLoop medication_map ms seen

/-- The `CURRENT MEDICATIONS (ACTIVE)` section parts: Active/On-hold
requests, newest authored-on first (missing dates oldest), deduplicated by
rendered string. -/
def medicationsParts (medication_map : List (String × MedicationR))
    (requests : List MedicationRequestR) : List String :=
let current := requests.filter (fun m =>
  AppMedicationRequest.status m = some .active ∨ AppMedicationRequest.status m = some .onHold)
if current.isEmpty then ["\n### CURRENT MEDICATIONS (ACTIVE)\n- No active medications"]
else "\n### CURRENT MEDICATIONS (ACTIVE)"
  :: medsLoop medication_map
      (Py.sortByKeyRev (fun m => (AppMedicationRequest.authored_on m).getD PyDate.min) current) []

/-- One observation bucket section, alphabetized by label. -/
def obsSection (title : String) (items : List ObservationR) : List String :=
if items.isEmpty then []
else ("\n### " ++ title)
  :: (Py.sortByKey (fun o => o.code_text.getD "") items).map AppObservation.to_prompt_string

/-- The observation snapshot sections: keep Final/Amended/Corrected, group by
label in first-seen order, keep the most recent per group, bucket into four
sections. -/
def observationsParts (observations : List ObservationR) : List String :=
let valid := observations.filter (fun o =>
  AppObservation.status o = .final ∨ AppObservation.status o = .amended
  ∨ AppObservation.status o = .corrected)
if valid.isEmpty then []
else
  let groups := Py.groupFold (valid.map (fun o =>
    ((if Py.truthyS o.code_text then o.code_text.getD "" else "Unknown"), o)))
  let latest := groups.map (fun g =>
    (Py.sortByKey (fun o => (AppObservation.effective_date o).getD PyDate.min) g.2).getLastD
      ⟨none, none, none, none, ""⟩)
  let vitals := latest.filter (fun o => AppObservation.categoryA o = some .vitalSigns)
  let labs := latest.filter (fun o => AppObservation.categoryA o = some .laboratory)
  let social := latest.filter (fun o => AppObservation.categoryA o = some .socialHistory)
  let other := latest.filter (fun o =>
    AppObservation.categoryA o ≠ some .vitalSigns
    ∧ AppObservation.categoryA o ≠ some .laboratory
    ∧ AppObservation.categoryA o ≠ some .socialHistory)
  obsSection "LATEST VITAL SIGNS" vitals
    ++ obsSection "SOCIAL HISTORY & LIFESTYLE" social
    ++ obsSection "LATEST LABORATORY RESULTS" labs
    ++ obsSection "OTHER CLINICAL FINDINGS (Surveys, Imaging, Exams)" other

/-- The `LATEST CLINICAL NOTE` section parts: among reports with truthy text
content, the one with the latest effective date (missing dates oldest,
ties broken by position through the stable sort). -/
def noteParts (dec : String → Option String) (reports : List DiagnosticReportR) : List String :=
let text_reports := reports.filter (fun r => Py.truthyS (AppDiagnosticReport.report_text dec r))
if text_reports.isEmpty then []
else
  let latest := (Py.sortByKey (fun r => (AppDiagnosticReport.effective_date r).getD PyDate.min)
    text_reports).getLastD ⟨none, none, none, none, []⟩
  ["\n### LATEST CLINICAL NOTE", AppDiagnosticReport.to_prompt_string dec latest]

/-- All parts of `generate_clinical_context` in stage order (the
`context_parts` list of the source). -/
def genParts (dec : String → Option String) (s : PatientState)
    (medication_map : List (String × MedicationR)) (today : PyDate) : List String :=
currentDateLine s today :: demographicsParts s today
++ devicesParts s.devices
++ allergiesParts s.allergies
++ carePlansParts s.care_plans
++ conditionsParts s.conditions
++ proceduresParts s.procedures
++ immunizationsParts s.immunizations
++ medicationsParts medication_map s.medication_requests
++ observationsParts s.observations
++ noteParts dec s.diagnostic_reports

/-- `AppPatient.generate_clinical_context`: the parts joined by newlines. -/
def generate_clinical_context (dec : String → Option String) (s : PatientState)
    (medication_map : List (String × MedicationR)) (today : PyDate) : String :=
String.intercalate "\n" (genParts dec s medication_map today)

/-- The call `generate_clinical_context` as a state transformer: the string
result together with the aggregate after the call. Every in-place `sort` of
the source acts on a list freshly built by a comprehension (or on the local
grouping dict's value lists), and the method never assigns to any `self`
field, so the translated call leaves the aggregate unchanged. -/
def generate_clinical_context_run (dec : String → Option String) (s : PatientState)
    (medication_map : List (String × MedicationR)) (today : PyDate) : String × PatientState :=
(generate_clinical_context dec s medication_map today, s)

end AppPatient

section Lemmas

variable {α β : Type}

/-- Stable sort permutes its input. -/
theorem sortByKey_perm [LinearOrder β] (key : α → β) (l : List α) :
    (Py.sortByKey key l).Perm l :=
List.perm_insertionSort _ l

/-- Stable sort sorts by its key. -/
theorem sortByKey_sorted [LinearOrder β] (key : α → β) (l : List α) :
    List.Sorted (fun a b => key a ≤ key b) (Py.sortByKey key l) := by
  haveI : IsTotal α (fun a b => key a ≤ key b) := ⟨fun a b => le_total _ _⟩
  haveI : IsTrans α (fun a b => key a ≤ key b) := ⟨fun a b c hab hbc => le_trans hab hbc⟩
  exact List.sorted_insertionSort _ l

/-- Elements of `dedupFirst` are elements of the input and conversely. -/
theorem mem_dedupFirst [DecidableEq α] (x : α) : ∀ (l : List α),
    x ∈ Py.dedupFirst l ↔ x ∈ l
| [] => by simp [Py.dedupFirst]
| a :: l => by
  rw [Py.dedupFirst]
  by_cases hxa : x = a
  · subst hxa; simp
  · simp only [List.mem_cons, hxa, false_or]
    rw [mem_dedupFirst x (l.filter (fun y => y ≠ a))]
    simp [List.mem_filter, hxa]
termination_by l => l.length
decreasing_by
  simp only [List.length_cons]
  exact Nat.lt_succ_of_le (List.length_filter_le _ _)

/-- `dedupFirst` has no duplicates. -/
theorem nodup_dedupFirst [DecidableEq α] : ∀ (l : List α), (Py.dedupFirst l).Nodup
| [] => by simp [Py.dedupFirst]
| a :: l => by
  rw [Py.dedupFirst]
  refine List.nodup_cons.mpr ⟨?_, nodup_dedupFirst (l.filter (fun y => y ≠ a))⟩
  intro hmem
  have := (mem_dedupFirst a _).mp hmem
  simp [List.mem_filter] at this
termination_by l => l.length
decreasing_by
  simp only [List.length_cons]
  exact Nat.lt_succ_of_le (List.length_filter_le _ _)

/-- Appending one element to the input of `dedupFirst`: absorbed when already
present, appended when new. -/
theorem dedupFirst_append_singleton [DecidableEq α] (k : α) : ∀ (l : List α),
    Py.dedupFirst (l ++ [k])
      = if k ∈ l then Py.dedupFirst l else Py.dedupFirst l ++ [k]
| [] => by simp [Py.dedupFirst]
| a :: l => by
  by_cases hka : k = a
  · subst hka
    rw [List.cons_append, Py.dedupFirst, Py.dedupFirst]
    have hfilter : (l ++ [k]).filter (fun y => y ≠ k) = l.filter (fun y => y ≠ k) := by
      simp [List.filter_append]
    rw [hfilter]
    simp
  · rw [List.cons_append, Py.dedupFirst, Py.dedupFirst]
    have hfilter : (l ++ [k]).filter (fun y => y ≠ a)
        = l.filter (fun y => y ≠ a) ++ [k] := by
      simp [List.filter_append, hka]
    rw [hfilter, dedupFirst_append_singleton k (l.filter (fun y => y ≠ a))]
    have hmem : k ∈ l.filter (fun y => y ≠ a) ↔ k ∈ l := by
      simp [List.mem_filter, hka]
    by_cases hkl : k ∈ l
    · simp [hmem.mpr hkl, hkl, hka]
    · have : ¬ k ∈ l.filter (fun y => y ≠ a) := fun h => hkl (hmem.mp h)
      simp only [this, if_neg, hka, hkl]
      simp [hka, hkl]
termination_by l => l.length
decreasing_by
  simp only [List.length_cons]
  exact Nat.lt_succ_of_le (List.length_filter_le _ _)

/-- With no pair keyed `k`, the value extraction at `k` is empty. -/
theorem filterMap_key_eq_nil {κ ν : Type} [DecidableEq κ] (k : κ) (kv : List (κ × ν))
    (h : k ∉ kv.map Prod.fst) :
    kv.filterMap (fun p => if p.1 = k then some p.2 else none) = [] := by
  induction kv with
  | nil => rfl
  | cons p rest ih =>
    simp only [List.map_cons, List.mem_cons] at h
    push_neg at h
    rw [List.filterMap_cons]
    have hpk : ¬ p.1 = k := fun hc => h.1 hc.symm
    simp only [hpk, if_false]
    exact ih h.2

/-- `pushKV` into a grouped image of a key list: the value is appended to the
(unique) entry of its key. -/
theorem pushKV_mem [DecidableEq α] {ν : Type} (k : α) (v : ν) (g : α → List ν) :
    ∀ (L : List α), L.Nodup → k ∈ L →
    Py.pushKV k v (L.map (fun x => (x, g x)))
      = L.map (fun x => (x, g x ++ if x = k then [v] else []))
| [], _, hmem => absurd hmem (List.not_mem_nil k)
| a :: L, hnd, hmem => by
  rw [List.map_cons, List.map_cons, Py.pushKV]
  by_cases hak : a = k
  · subst hak
    rw [if_pos rfl, if_pos rfl]
    have hnotin : a ∉ L := (List.nodup_cons.mp hnd).1
    congr 1
    refine (List.map_congr_left ?_).symm
    intro x hx
    have hxa : ¬ x = a := fun hc => hnotin (hc ▸ hx)
    simp [hxa]
  · have hkL : k ∈ L := by
      rcases List.mem_cons.mp hmem with h | h
      · exact absurd h.symm hak
      · exact h
    rw [if_neg hak, if_neg hak]
    rw [pushKV_mem k v g L (List.nodup_cons.mp hnd).2 hkL]
    simp

/-- `pushKV` with a fresh key appends a new singleton group at the end. -/
theorem pushKV_not_mem [DecidableEq α] {ν : Type} (k : α) (v : ν) (g : α → List ν) :
    ∀ (L : List α), k ∉ L →
    Py.pushKV k v (L.map (fun x => (x, g x)))
      = L.map (fun x => (x, g x)) ++ [(k, [v])]
| [], _ => rfl
| a :: L, hmem => by
  have hak : ¬ a = k := by
    intro hc
    exact hmem (by rw [hc]; exact List.mem_cons_self _ _)
  rw [List.map_cons, Py.pushKV]
  rw [if_neg hak]
  rw [pushKV_not_mem k v g L (fun h => hmem (List.mem_cons_of_mem _ h))]
  simp

/-- The insertion-ordered grouping dictionary, characterized: its keys are
the distinct pair keys in first-seen order, and each key maps to all its
values in input order. -/
theorem groupFold_eq {κ ν : Type} [DecidableEq κ] (kv : List (κ × ν)) :
    Py.groupFold kv
      = (Py.dedupFirst (kv.map Prod.fst)).map
          (fun k => (k, kv.filterMap (fun p => if p.1 = k then some p.2 else none))) := by
  induction kv using List.reverseRecOn with
  | nil => simp [Py.groupFold, Py.dedupFirst]
  | append_singleton kv p ih =>
    have hfold : Py.groupFold (kv ++ [p]) = Py.pushKV p.1 p.2 (Py.groupFold kv) := by
      simp [Py.groupFold, List.foldl_append]
    rw [hfold, ih]
    have hkeys : (kv ++ [p]).map Prod.fst = kv.map Prod.fst ++ [p.1] := by simp
    rw [hkeys, dedupFirst_append_singleton]
    by_cases hmem : p.1 ∈ kv.map Prod.fst
    · rw [if_pos hmem]
      rw [pushKV_mem p.1 p.2 _ _ (nodup_dedupFirst _) ((mem_dedupFirst _ _).mpr hmem)]
      refine List.map_congr_left ?_
      intro k hk
      simp only [Prod.mk.injEq, true_and]
      rw [List.filterMap_append]
      congr 1
      by_cases hpk : p.1 = k
      · simp [List.filterMap_cons, hpk]
      · have hkp : ¬ k = p.1 := fun hc => hpk hc.symm
        simp [List.filterMap_cons, hpk, hkp]
    · rw [if_neg hmem]
      rw [pushKV_not_mem p.1 p.2 _ _ (fun h => hmem ((mem_dedupFirst _ _).mp h))]
      rw [List.map_append]
      congr 1
      · refine List.map_congr_left ?_
        intro k hk
        have hk' : k ∈ kv.map Prod.fst := (mem_dedupFirst _ _).mp hk
        have hpk : ¬ p.1 = k := fun hc => hmem (hc ▸ hk')
        have hkp : ¬ k = p.1 := fun hc => hpk hc.symm
        simp only [Prod.mk.injEq, true_and]
        rw [List.filterMap_append]
        simp [List.filterMap_cons, hpk, hkp]
      · simp only [List.map_cons, List.map_nil, List.cons.injEq, and_true]
        rw [List.filterMap_append]
        rw [filterMap_key_eq_nil p.1 kv hmem]
        simp [List.filterMap_cons]

/-- In a list sorted by a key, every element's key is bounded by the key of
the last element. -/
theorem sorted_key_le_getLastD [LinearOrder β] (key : α → β) (d₀ : α) :
    ∀ (l : List α), List.Sorted (fun a b => key a ≤ key b) l →
      ∀ x ∈ l, key x ≤ key (l.getLastD d₀)
| [], _, x, hx => absurd hx (List.not_mem_nil x)
| [a], _, x, hx => by
  rcases List.mem_singleton.mp hx with rfl
  simp [List.getLastD]
| a :: b :: t, hs, x, hx => by
  have hpair := List.pairwise_cons.mp hs
  have htail : List.Sorted (fun a b => key a ≤ key b) (b :: t) := hpair.2
  have hlast : (a :: b :: t).getLastD d₀ = (b :: t).getLastD d₀ := by
    simp [List.getLastD_cons]
  rw [hlast]
  rcases List.mem_cons.mp hx with rfl | hx'
  · have hmem : (b :: t).getLastD d₀ ∈ b :: t := by
      have hgl := List.getLast_mem (l := b :: t) (by simp)
      rw [List.getLastD_eq_getLast?, List.getLast?_eq_getLast (b :: t) (by simp)]
      exact hgl
    exact hpair.1 _ hmem
  · exact sorted_key_le_getLastD key d₀ (b :: t) htail x hx'

/-- The last element of the stable sort of a non-empty date list is a member
of the input and an upper bound for it. -/
theorem sortByKey_getLastD_max (l : List PyDate) (h : l ≠ []) :
    (Py.sortByKey id l).getLastD PyDate.min ∈ l
    ∧ ∀ d ∈ l, d ≤ (Py.sortByKey id l).getLastD PyDate.min := by
  have hperm := sortByKey_perm (id : PyDate → PyDate) l
  have hsorted := sortByKey_sorted (id : PyDate → PyDate) l
  have hne : Py.sortByKey id l ≠ [] := by
    intro hc
    apply h
    have hlen := hperm.length_eq
    rw [hc] at hlen
    exact List.eq_nil_of_length_eq_zero hlen.symm
  constructor
  · refine hperm.mem_iff.mp ?_
    have hmem := List.getLast_mem (l := Py.sortByKey id l) hne
    rw [List.getLastD_eq_getLast?, List.getLast?_eq_getLast _ hne]
    exact hmem
  · intro d hd
    exact sorted_key_le_getLastD id PyDate.min _ hsorted d (hperm.mem_iff.mpr hd)

/-- Python `max` over a non-empty list: membership and upper bound. -/
theorem pyMaxFrom_spec [LinearOrder α] :
    ∀ (l : List α) (a : α),
      Py.pyMaxFrom a l ∈ a :: l ∧ a ≤ Py.pyMaxFrom a l ∧ ∀ x ∈ l, x ≤ Py.pyMaxFrom a l
| [], a => by simp [Py.pyMaxFrom]
| x :: xs, a => by
  have hstep : Py.pyMaxFrom a (x :: xs) = Py.pyMaxFrom (if a < x then x else a) xs := rfl
  set b := if a < x then x else a with hb
  have hab : a ≤ b := by
    rw [hb]; split
    · exact le_of_lt (by assumption)
    · exact le_rfl
  have hxb : x ≤ b := by
    rw [hb]; split
    · exact le_rfl
    · exact le_of_not_lt (by assumption)
  obtain ⟨hmem, hble, hub⟩ := pyMaxFrom_spec xs b
  rw [hstep]
  refine ⟨?_, le_trans hab hble, ?_⟩
  · rcases List.mem_cons.mp hmem with hc | hc
    · rw [hc, hb]
      split
      · exact List.mem_cons_of_mem _ (List.mem_cons_self _ _)
      · exact List.mem_cons_self _ _
    · exact List.mem_cons_of_mem _ (List.mem_cons_of_mem _ hc)
  · intro y hy
    rcases List.mem_cons.mp hy with rfl | hy2
    · exact le_trans hxb hble
    · exact hub y hy2

/-- A string starting with `"- "` is not empty. -/
theorem dash_append_ne_empty (t : String) : "- " ++ t ≠ "" := by
  intro hc
  have h1 := congrArg String.length hc
  rw [String.length_append] at h1
  have h2 : ("- " : String).length = 2 := rfl
  have h3 : ("" : String).length = 0 := rfl
  rw [h2, h3] at h1
  omega

/-- Condition renders are never the empty string. -/
theorem condition_render_ne_empty (c : ConditionR) :
    AppCondition.to_prompt_string c ≠ "" := by
  unfold AppCondition.to_prompt_string
  apply dash_append_ne_empty

/-- Medication-request renders are never the empty string. -/
theorem medreq_render_ne_empty (medication_map : List (String × MedicationR))
    (m : MedicationRequestR) :
    AppMedicationRequest.to_prompt_string medication_map m ≠ "" := by
  unfold AppMedicationRequest.to_prompt_string
  apply dash_append_ne_empty

/-- Unfolding lemma for `dedupFirst` on an empty list. -/
theorem dedupFirst_nil {α : Type} [DecidableEq α] : Py.dedupFirst ([] : List α) = [] := by
  rw [Py.dedupFirst]

/-- Unfolding lemma for `dedupFirst` on a cons. -/
theorem dedupFirst_cons {α : Type} [DecidableEq α] (a : α) (l : List α) :
    Py.dedupFirst (a :: l) = a :: Py.dedupFirst (l.filter (fun x => x ≠ a)) := by
  rw [Py.dedupFirst]

/-- Restricting a not-seen filter by one more seen element factors as a
second filter. -/
theorem filter_notmem_cons {α : Type} [DecidableEq α] (l : List α) (s : α) (seen : List α) :
    l.filter (fun x => x ∉ s :: seen)
      = (l.filter (fun x => x ∉ seen)).filter (fun x => x ≠ s) := by
  rw [List.filter_filter]
  refine List.filter_congr ?_
  intro x hx
  by_cases hxs : x = s <;> by_cases hxseen : x ∈ seen <;> simp [hxs, hxseen]

/-- The problem-list `seen` loop equals first-occurrence deduplication of the
renders not yet seen. -/
theorem problemLoop_eq_dedupFirst : ∀ (cs : List ConditionR) (seen : List String),
    AppPatient.problemLoop cs seen
      = Py.dedupFirst ((cs.map AppCondition.to_prompt_string).filter (fun s => s ∉ seen))
| [], seen => by simp [AppPatient.problemLoop, dedupFirst_nil]
| c :: cs, seen => by
  rw [AppPatient.problemLoop]
  set s := AppCondition.to_prompt_string c with hs
  have hne : s ≠ "" := condition_render_ne_empty c
  by_cases hseen : s ∈ seen
  · rw [if_neg (by simp [hseen])]
    rw [problemLoop_eq_dedupFirst cs seen]
    have hfc : ((c :: cs).map AppCondition.to_prompt_string).filter (fun x => x ∉ seen)
        = (cs.map AppCondition.to_prompt_string).filter (fun x => x ∉ seen) := by
      rw [List.map_cons, List.filter_cons]
      simp [← hs, hseen]
    rw [hfc]
  · rw [if_pos ⟨hne, hseen⟩]
    rw [problemLoop_eq_dedupFirst cs (s :: seen)]
    have hfc : ((c :: cs).map AppCondition.to_prompt_string).filter (fun x => x ∉ seen)
        = s :: (cs.map AppCondition.to_prompt_string).filter (fun x => x ∉ seen) := by
      rw [List.map_cons, List.filter_cons]
      simp [← hs, hseen]
    rw [hfc, dedupFirst_cons]
    rw [filter_notmem_cons]

/-- The medications `seen` loop equals first-occurrence deduplication of the
renders not yet seen. -/
theorem medsLoop_eq_dedupFirst (medication_map : List (String × MedicationR)) :
    ∀ (ms : List MedicationRequestR) (seen : List String),
    AppPatient.medsLoop medication_map ms seen
      = Py.dedupFirst
          ((ms.map (AppMedicationRequest.to_prompt_string medication_map)).filter
            (fun s => s ∉ seen))
| [], seen => by simp [AppPatient.medsLoop, dedupFirst_nil]
| m :: ms, seen => by
  rw [AppPatient.medsLoop]
  set s := AppMedicationRequest.to_prompt_string medication_map m with hs
  have hne : s ≠ "" := medreq_render_ne_empty medication_map m
  by_cases hseen : s ∈ seen
  · rw [if_neg (by simp [hseen])]
    rw [medsLoop_eq_dedupFirst medication_map ms seen]
    have hfc : ((m :: ms).map (AppMedicationRequest.to_prompt_string medication_map)).filter
          (fun x => x ∉ seen)
        = (ms.map (AppMedicationRequest.to_prompt_string medication_map)).filter
            (fun x => x ∉ seen) := by
      rw [List.map_cons, List.filter_cons]
      simp [← hs, hseen]
    rw [hfc]
  · rw [if_pos ⟨hne, hseen⟩]
    rw [medsLoop_eq_dedupFirst medication_map ms (s :: seen)]
    have hfc : ((m :: ms).map (AppMedicationRequest.to_prompt_string medication_map)).filter
          (fun x => x ∉ seen)
        = s :: (ms.map (AppMedicationRequest.to_prompt_string medication_map)).filter
            (fun x => x ∉ seen) := by
      rw [List.map_cons, List.filter_cons]
      simp [← hs, hseen]
    rw [hfc, dedupFirst_cons]
    rw [filter_notmem_cons]

/-- A conditional `filterMap` over codings is a filter followed by a map. -/
theorem coding_filterMap_eq (l : List Coding) :
    l.filterMap (fun cd =>
        if Py.truthyS cd.system && Py.truthyS cd.code then
          some (⟨AppCodeableConcept.clean_system_name (cd.system.getD ""),
                 cd.code.getD "", cd.display⟩ : CodingDetail)
        else none)
      = (l.filter (fun cd => Py.truthyS cd.system && Py.truthyS cd.code)).map
          (fun cd => ⟨AppCodeableConcept.clean_system_name (cd.system.getD ""),
                      cd.code.getD "", cd.display⟩) := by
  induction l with
  | nil => rfl
  | cons cd l ih =>
    rw [List.filterMap_cons, List.filter_cons]
    by_cases h : (Py.truthyS cd.system && Py.truthyS cd.code) = true
    · rw [if_pos h, if_pos h, ih, List.map_cons]
    · rw [if_neg h, if_neg h, ih]

end Lemmas

/-- C9: `coding_details` emits one cleaned `(system, code, display)` entry per
coding, skipping exactly those codings whose system is missing/empty or whose
code is missing/empty (a coding with only one of the two present is skipped,
not kept), and normalizing recognized system URIs to their short canonical
names while passing unrecognized URIs through unchanged. -/
theorem c9_coding_details_characterization :
    (∀ c : CodeableConcept,
      AppCodeableConcept.coding_details c
        = (c.codings.filter (fun cd => Py.truthyS cd.system && Py.truthyS cd.code)).map
            (fun cd => ⟨AppCodeableConcept.clean_system_name (cd.system.getD ""),
                        cd.code.getD "", cd.display⟩))
    ∧ AppCodeableConcept.clean_system_name "http://snomed.info/sct" = "SNOMED"
    ∧ AppCodeableConcept.clean_system_name "http://loinc.org" = "LOINC"
    ∧ AppCodeableConcept.clean_system_name "http://www.nlm.nih.gov/research/umls/rxnorm"
        = "RxNorm"
    ∧ AppCodeableConcept.clean_system_name "http://hl7.org/fhir/sid/icd-9-cm" = "ICD-9"
    ∧ AppCodeableConcept.clean_system_name "http://hl7.org/fhir/sid/icd-10" = "ICD-10"
    ∧ AppCodeableConcept.clean_system_name "http://unitsofmeasure.org" = "UCUM"
    ∧ AppCodeableConcept.clean_system_name "http://hl7.org/fhir/sid/cvx" = "CVX"
    ∧ AppCodeableConcept.clean_system_name "http://hl7.org/fhir/sid/ndc" = "NDC"
    ∧ AppCodeableConcept.clean_system_name "http://www.ama-assn.org/go/cpt" = "CPT"
    ∧ AppCodeableConcept.clean_system_name "urn:oid:2.16.840.1.113883.6.42"
        = "urn:oid:2.16.840.1.113883.6.42" := by
  refine ⟨fun c => coding_filterMap_eq c.codings, ?_, ?_, ?_, ?_, ?_, ?_, ?_, ?_, ?_, ?_⟩
  all_goals decide

/-- C9 counterexample: a coding with a system but no code is skipped by
`coding_details` (the claim says a coding with only one of the two is kept,
predicting one entry here). -/
theorem c9_counterexample :
    AppCodeableConcept.coding_details
        ⟨none, [⟨some "http://snomed.info/sct", none, some "Stroke"⟩]⟩ = []
    ∧ (([⟨some "http://snomed.info/sct", none, some "Stroke"⟩] : List Coding).filter
        (fun cd => ¬ (cd.system = none ∧ cd.code = none))).length = 1 := by
  constructor
  · rfl
  · rfl

/-- C4 (amended): the status accessors of Observation (UNKNOWN sentinel),
Device, CarePlan, MedicationRequest, DiagnosticReport, DocumentReference
(None) and the `bind_to`-based Condition/AllergyIntolerance clinical-status
accessors (None) degrade gracefully on unrecognized raw codes; the
Immunization and Procedure accessors instead return the raw status string
unchanged (still without raising). -/
theorem c4_status_accessors_degrade :
    (∀ o : ObservationR, (∀ k, o.status = some k → ObservationStatus.ofCode k = none) →
      AppObservation.status o = .unknown)
    ∧ (∀ d : DeviceR, (∀ k, d.status = some k → DeviceStatus.ofCode k = none) →
        AppDevice.status d = none)
    ∧ (∀ p : CarePlanR, (∀ k, p.status = some k → CarePlanStatus.ofCode k = none) →
        AppCarePlan.status p = none)
    ∧ (∀ m : MedicationRequestR,
        (∀ k, m.status = some k → MedicationRequestStatus.ofCode k = none) →
        AppMedicationRequest.status m = none)
    ∧ (∀ r : DiagnosticReportR,
        (∀ k, r.status = some k → DiagnosticReportStatus.ofCode k = none) →
        AppDiagnosticReport.status r = none)
    ∧ (∀ d : DocumentReferenceR,
        (∀ k, d.status = some k → DocumentReferenceStatus.ofCode k = none) →
        AppDocumentReference.status d = none)
    ∧ (∀ c : ConditionR,
        (∀ cc, c.clinicalStatus = some cc → ∀ cd ∈ cc.codings, ∀ k, cd.code = some k →
          ConditionClinicalStatus.ofCode (Py.lowerStr k) = none) →
        AppCondition.clinical_status c = none)
    ∧ (∀ a : AllergyR,
        (∀ cc, a.clinicalStatus = some cc → ∀ cd ∈ cc.codings, ∀ k, cd.code = some k →
          AllergyClinicalStatus.ofCode (Py.lowerStr k) = none) →
        AppAllergyIntolerance.clinical_status a = none)
    ∧ (∀ i : ImmunizationR, AppImmunization.status i = i.status)
    ∧ (∀ p : ProcedureR, AppProcedure.status p = p.status) := by
  have hbind : ∀ {ε : Type} (ofCode : String → Option ε) (cc : CodeableConcept),
      (∀ cd ∈ cc.codings, ∀ k, cd.code = some k → ofCode (Py.lowerStr k) = none) →
      AppCodeableConcept.bind_to ofCode cc = none := by
    intro ε ofCode cc h
    unfold AppCodeableConcept.bind_to
    rw [List.findSome?_eq_none_iff]
    intro cd hcd
    cases hcode : cd.code with
    | none => simp [Py.truthyS, hcode]
    | some k =>
      by_cases hk : k = ""
      · simp [Py.truthyS, hcode, hk]
      · simp only [Py.truthyS, hcode, hk]
        rw [if_pos (by simp [hk])]
        simpa [hcode] using h cd hcd k hcode
  refine ⟨?_, ?_, ?_, ?_, ?_, ?_, ?_, ?_, fun i => rfl, fun p => rfl⟩
  · intro o h
    unfold AppObservation.status
    cases hs : o.status with
    | none => simp [Py.truthyS]
    | some k =>
      by_cases hk : k = ""
      · simp [Py.truthyS, hk]
      · rw [if_pos (by simp [Py.truthyS, hk])]
        simp [h k hs]
  · intro d h
    unfold AppDevice.status
    cases hs : d.status with
    | none => simp [Py.truthyS]
    | some k =>
      by_cases hk : k = ""
      · simp [Py.truthyS, hk]
      · rw [if_pos (by simp [Py.truthyS, hk])]
        simp [h k hs]
  · intro p h
    unfold AppCarePlan.status
    cases hs : p.status with
    | none => simp [Py.truthyS]
    | some k =>
      by_cases hk : k = ""
      · simp [Py.truthyS, hk]
      · rw [if_pos (by simp [Py.truthyS, hk])]
        simp [h k hs]
  · intro m h
    unfold AppMedicationRequest.status
    cases hs : m.status with
    | none => simp [Py.truthyS]
    | some k =>
      by_cases hk : k = ""
      · simp [Py.truthyS, hk]
      · rw [if_pos (by simp [Py.truthyS, hk])]
        simp [h k hs]
  · intro r h
    unfold AppDiagnosticReport.status
    cases hs : r.status with
    | none => simp [Py.truthyS]
    | some k =>
      by_cases hk : k = ""
      · simp [Py.truthyS, hk]
      · rw [if_pos (by simp [Py.truthyS, hk])]
        simp [h k hs]
  · intro d h
    unfold AppDocumentReference.status
    cases hs : d.status with
    | none => simp [Py.truthyS]
    | some k =>
      by_cases hk : k = ""
      · simp [Py.truthyS, hk]
      · rw [if_pos (by simp [Py.truthyS, hk])]
        simp [h k hs]
  · intro c h
    unfold AppCondition.clinical_status
    cases hcs : c.clinicalStatus with
    | none => rfl
    | some cc => simpa using hbind ConditionClinicalStatus.ofCode cc (h cc hcs)
  · intro a h
    unfold AppAllergyIntolerance.clinical_status
    cases hcs : a.clinicalStatus with
    | none => rfl
    | some cc => simpa using hbind AllergyClinicalStatus.ofCode cc (h cc hcs)

/-- C4 witness: the Observation accessor at the concrete unrecognized code
`bogus` yields the UNKNOWN sentinel. -/
theorem c4_witness :
    AppObservation.status ⟨some "bogus", none, none, none, ""⟩ = .unknown :=
c4_status_accessors_degrade.1 ⟨some "bogus", none, none, none, ""⟩
  (fun k hk => by cases hk; rfl)

/-- C4 counterexample: the Immunization status accessor returns the raw
unrecognized code `bogus` itself, not `None` and not an UNKNOWN member
(`bogus` is none of the documented `completed`/`entered-in-error`/`not-done`
values). -/
theorem c4_counterexample :
    AppImmunization.status ⟨some "bogus", none, "", none⟩ = some "bogus"
    ∧ some "bogus" ≠ (none : Option String)
    ∧ "bogus" ∉ ["completed", "entered-in-error", "not-done", "unknown"] := by
  refine ⟨rfl, by simp, by decide⟩

/-- The status/onset decorations a Condition render appends after its label. -/
def condDecorations (c : ConditionR) : String :=
(if AppCondition.clinical_status c = some .relapse then " (Relapse)"
 else if AppCondition.clinical_status c = some .recurrence then " (Recurrence)" else "")
++ (if AppCondition.verification_status c = some .unconfirmed then " (Unconfirmed)" else "")
++ (match AppCondition.onset_date c with
    | some d => " [Onset: " ++ d.strftime ++ "]"
    | none => "")

/-- The category/type/verification/criticality decorations an
AllergyIntolerance render appends after its label. -/
def allergyDecorations (a : AllergyR) : String :=
(let meta_parts :=
    ((AppAllergyIntolerance.category a).map AppAllergyIntolerance.catCap).toList
      ++ ((AppAllergyIntolerance.typeE a).map AppAllergyIntolerance.typeCap).toList
 if meta_parts.isEmpty then "" else " (" ++ String.intercalate " " meta_parts ++ ")")
++ (if AppAllergyIntolerance.verification_status a = some .unconfirmed then " (Unconfirmed)"
    else "")
++ (if AppAllergyIntolerance.criticality a = some .high then " [CRITICAL/HIGH RISK]"
    else match AppAllergyIntolerance.criticality a with
      | some cr => " [CRITICAL " ++ cr.value ++ "]"
      | none => "")

/-- The date/status/dosage decorations a MedicationRequest render appends
after its resolved name. -/
def medreqDecorations (m : MedicationRequestR) : String :=
(match AppMedicationRequest.authored_on m with
 | some d => " (Start: " ++ d.strftime ++ ")"
 | none => "")
++ (if AppMedicationRequest.status m = some .onHold then " [STATUS: ON-HOLD/SUSPENDED]" else "")
++ (match AppMedicationRequest.dosage_text m with
    | some t => if t ≠ "" then "\n  Sig: " ++ t else ""
    | none => "")

/-- C3 (amended): with neither a readable label nor any usable coding, the
CarePlan (no renderable activities), DiagnosticReport and DocumentReference
(no text content) renderers return the empty string, but the Condition,
Device, AllergyIntolerance, Medication and MedicationRequest renderers
instead emit a non-empty entry carrying an `Unknown ...` placeholder label
(followed only by their status/date decorations). -/
theorem c3_render_empty_and_unknown_fallbacks :
    (∀ c : ConditionR, AppCondition.code_text c = none → AppCondition.code_details c = [] →
      AppCondition.to_prompt_string c = "- Unknown Condition" ++ condDecorations c
      ∧ AppCondition.to_prompt_string c ≠ "")
    ∧ (∀ d : DeviceR, AppDevice.type_text d = none → AppDevice.device_names d = none →
        AppDevice.type_details d = [] →
        AppDevice.to_prompt_string d = "- Unknown Device")
    ∧ (∀ a : AllergyR, AppAllergyIntolerance.code_text a = none →
        AppAllergyIntolerance.code_details a = [] →
        AppAllergyIntolerance.to_prompt_string a = "- Unknown Substance" ++ allergyDecorations a
        ∧ AppAllergyIntolerance.to_prompt_string a ≠ "")
    ∧ (∀ m : MedicationR, AppMedication.code_text m = none →
        AppMedication.code_details m = [] →
        AppMedication.to_prompt_string m = "Unknown Medication")
    ∧ (∀ m : MedicationRequestR, m.medicationReference = none →
        AppMedicationRequest.medication_concept_text m = none →
        ∀ medication_map,
        AppMedicationRequest.to_prompt_string medication_map m
            = "- Unknown Medication" ++ medreqDecorations m
        ∧ AppMedicationRequest.to_prompt_string medication_map m ≠ "")
    ∧ (∀ p : CarePlanR, AppCarePlan.activities_summary p = [] →
        AppCarePlan.to_prompt_string p = "")
    ∧ (∀ dec (r : DiagnosticReportR), AppDiagnosticReport.report_text dec r = none →
        AppDiagnosticReport.to_prompt_string dec r = "")
    ∧ (∀ dec (d : DocumentReferenceR),
        AppDocumentReference.content_text dec d = .ok none →
        AppDocumentReference.to_prompt_string dec d = .ok "") := by
  refine ⟨?_, ?_, ?_, ?_, ?_, ?_, ?_, ?_⟩
  · intro c h1 h2
    refine ⟨?_, condition_render_ne_empty c⟩
    unfold AppCondition.to_prompt_string condDecorations
    rw [h1, h2]
    simp only [Py.truthyS, Bool.false_eq_true, if_false]
    rw [AppCodeableConcept.codesStr]
    simp only [List.isEmpty_nil, if_true]
    have hfold : ("- " : String) ++ "Unknown Condition" = "- Unknown Condition" := rfl
    rw [← hfold]
    simp only [String.append_assoc, String.append_empty]
  · intro d h1 h2 h3
    unfold AppDevice.to_prompt_string
    rw [h1, h2, h3]
    simp only [Py.truthyS, Bool.false_eq_true, false_and, and_false, if_false]
    rw [AppCodeableConcept.codesStr]
    simp
  · intro a h1 h2
    refine ⟨?_, by
      unfold AppAllergyIntolerance.to_prompt_string
      apply dash_append_ne_empty⟩
    unfold AppAllergyIntolerance.to_prompt_string allergyDecorations
    rw [h1, h2]
    simp only [Py.truthyS, Bool.false_eq_true, if_false]
    rw [AppCodeableConcept.codesStr]
    simp only [List.isEmpty_nil, if_true]
    have hfold : ("- " : String) ++ "Unknown Substance" = "- Unknown Substance" := rfl
    rw [← hfold]
    simp only [String.append_assoc, String.append_empty]
  · intro m h1 h2
    unfold AppMedication.to_prompt_string AppMedication.simple_code_str
    rw [h1, h2]
    simp only [Py.truthyS, Bool.false_eq_true, if_false]
    rw [AppCodeableConcept.codesStr]
    simp
  · intro m h1 h2 medication_map
    refine ⟨?_, medreq_render_ne_empty medication_map m⟩
    unfold AppMedicationRequest.to_prompt_string AppMedicationRequest.medication_reference_id
      medreqDecorations
    rw [h1, h2]
    simp only [Py.truthyS, Bool.false_eq_true, if_false]
    have hfold : ("- " : String) ++ "Unknown Medication" = "- Unknown Medication" := rfl
    rw [← hfold]
    simp only [String.append_assoc, String.append_empty]
  · intro p h
    unfold AppCarePlan.to_prompt_string
    rw [h]
    rfl
  · intro dec r h
    unfold AppDiagnosticReport.to_prompt_string
    rw [h]
    rfl
  · intro dec d h
    unfold AppDocumentReference.to_prompt_string
    rw [h]
    rfl

/-- C3 counterexample: a Condition with no code concept at all renders the
non-empty placeholder line `- Unknown Condition`, not the empty string. -/
theorem c3_counterexample :
    AppCondition.to_prompt_string ⟨none, none, none, none, none⟩ = "- Unknown Condition"
    ∧ "- Unknown Condition" ≠ "" := by
  refine ⟨rfl, by decide⟩

/-- C3 witness: the Device conjunct evaluated at a concrete device with no
type, no names and no codings. -/
theorem c3_witness :
    AppDevice.to_prompt_string ⟨none, [], none⟩ = "- Unknown Device" :=
c3_render_empty_and_unknown_fallbacks.2.1 ⟨none, [], none⟩ rfl rfl rfl

/-- C7: `AppDocumentReference.content_text` raises `AttributeError` on an
attachment that has base64 data but no `contentType` (the `None` check
guards only the attachment and its data, and the `try` block starts after
the `startswith` call), instead of skipping it; the parallel
`AppDiagnosticReport.report_text` guards the missing content type and skips
the same attachment, returning `None`. The failing document carries one
content entry whose attachment has data `"Zm9v"` and no content type. -/
theorem c7_documentreference_missing_contenttype_raises :
    AppDocumentReference.content_text (fun s => some s)
        ⟨none, none, [], none, [⟨some ⟨none, some "Zm9v"⟩⟩]⟩ = .error .attributeError
    ∧ AppDiagnosticReport.report_text (fun s => some s)
        ⟨none, none, none, none, [⟨none, some "Zm9v"⟩]⟩ = none
    ∧ (∀ dec (d : DocumentReferenceR) (att : AttachmentR) (post : List DocContentR),
        d.content = ⟨some att⟩ :: post →
        Py.truthyS att.data →
        att.contentType = none →
        AppDocumentReference.content_text dec d = .error .attributeError) := by
  refine ⟨rfl, rfl, ?_⟩
  intro dec d att post hcontent hdata hct
  unfold AppDocumentReference.content_text
  rw [hcontent]
  rw [if_neg (by simp)]
  rw [AppDocumentReference.contentLoop]
  simp [hdata, hct]

/-- C8: with the aggregate unmutated between the calls (the state returned by
the first call is fed to the second) and the same decoding environment and
fallback date, a second `generate_clinical_context` call produces a string
equal to the first call's result, for every medication map. -/
theorem c8_generate_clinical_context_idempotent
    (dec : String → Option String) (s : PatientState)
    (medication_map : List (String × MedicationR)) (today : PyDate) :
    (AppPatient.generate_clinical_context_run dec
        (AppPatient.generate_clinical_context_run dec s medication_map today).2
        medication_map today).1
      = (AppPatient.generate_clinical_context_run dec s medication_map today).1 :=
rfl

/-- C10: `generate_clinical_context` is read-only on the aggregate: after the
call each of the ten owned collections (and the patient resource) is the very
list it was before, element for element and in order. -/
theorem c10_generate_clinical_context_frame
    (dec : String → Option String) (s : PatientState)
    (medication_map : List (String × MedicationR)) (today : PyDate) :
    (AppPatient.generate_clinical_context_run dec s medication_map today).2.devices = s.devices
    ∧ (AppPatient.generate_clinical_context_run dec s medication_map today).2.allergies
        = s.allergies
    ∧ (AppPatient.generate_clinical_context_run dec s medication_map today).2.care_plans
        = s.care_plans
    ∧ (AppPatient.generate_clinical_context_run dec s medication_map today).2.conditions
        = s.conditions
    ∧ (AppPatient.generate_clinical_context_run dec s medication_map today).2.procedures
        = s.procedures
    ∧ (AppPatient.generate_clinical_context_run dec s medication_map today).2.diagnostic_reports
        = s.diagnostic_reports
    ∧ (AppPatient.generate_clinical_context_run dec s medication_map today).2.document_references
        = s.document_references
    ∧ (AppPatient.generate_clinical_context_run dec s medication_map today).2.observations
        = s.observations
    ∧ (AppPatient.generate_clinical_context_run dec s medication_map today).2.immunizations
        = s.immunizations
    ∧ (AppPatient.generate_clinical_context_run dec s medication_map today).2.medication_requests
        = s.medication_requests
    ∧ (AppPatient.generate_clinical_context_run dec s medication_map today).2 = s :=
⟨rfl, rfl, rfl, rfl, rfl, rfl, rfl, rfl, rfl, rfl, rfl⟩

/-- C6 (amended): free-text dosage wins verbatim; the dose quantity renders
integral values without a decimal point; the timing rule table requires the
period to be 1 day or 24 hours also for the `Twice a day` and `3 times a
day` rows (not for every frequency-2/3 timing); `Every N hours` needs
freq 1, unit hours and no earlier row; everything else uses the generic
`{freq} times per {period} {unit-pluralized}` phrase; the coded timing
display is the fallback only when no structured repeat is present (a repeat
with missing pieces yields no timing part at all); `As needed` is appended
when flagged; instruction lines join with `"; "`. -/
theorem c6_dosage_rule_table :
    (∀ d : DosageR, Py.truthyS d.text → AppMedicationRequest.dosageLine d = d.text)
    ∧ (∀ (t u : Option String) (tm : Option TimingR) (an : Option Bool) (v : PyDecimal)
        (rest : List DoseRateR), v.isIntegral →
        AppMedicationRequest.dosePart ⟨t, ⟨some ⟨some v, u⟩⟩ :: rest, tm, an⟩
          = some (toString v.toInt))
    ∧ (∀ (p : PyDecimal) (u : String),
        (p.eqNat 1 ∧ u = "d") ∨ (p.eqNat 24 ∧ u = "h") →
        AppMedicationRequest.timingPhrase 1 p u = "Once a day")
    ∧ (∀ (p : PyDecimal) (u : String),
        (p.eqNat 1 ∧ u = "d") ∨ (p.eqNat 24 ∧ u = "h") →
        AppMedicationRequest.timingPhrase 2 p u = "Twice a day")
    ∧ (∀ (p : PyDecimal) (u : String),
        (p.eqNat 1 ∧ u = "d") ∨ (p.eqNat 24 ∧ u = "h") →
        AppMedicationRequest.timingPhrase 3 p u = "3 times a day")
    ∧ (∀ p : PyDecimal, ¬ p.eqNat 24 = true →
        AppMedicationRequest.timingPhrase 1 p "h"
          = "Every " ++ toString p.toInt ++ " hours")
    ∧ (∀ (f : Nat) (p : PyDecimal) (u : String),
        ¬ ((p.eqNat 1 ∧ u = "d") ∨ (p.eqNat 24 ∧ u = "h")) →
        ¬ (f = 1 ∧ u = "h") →
        AppMedicationRequest.timingPhrase f p u
          = toString f ++ " times per " ++ toString p.toInt ++ " "
            ++ (if p.gtOne then AppMedicationRequest.unitWord u ++ "s"
                else AppMedicationRequest.unitWord u))
    ∧ (∀ (t : Option String) (dr : List DoseRateR) (an : Option Bool) (cc : CodeableConcept),
        AppMedicationRequest.timingPart ⟨t, dr, some ⟨none, some cc⟩, an⟩
          = (if Py.truthyS (AppCodeableConcept.readable_value cc) then
               AppCodeableConcept.readable_value cc else none))
    ∧ (∀ (t : Option String) (dr : List DoseRateR) (an : Option Bool) (rep : RepeatR)
        (tc : Option CodeableConcept),
        ¬ (Py.truthyN rep.frequency ∧ (rep.period.map PyDecimal.truthy).getD false
            ∧ Py.truthyS rep.periodUnit) →
        AppMedicationRequest.timingPart ⟨t, dr, some ⟨some rep, tc⟩, an⟩ = none)
    ∧ (∀ d : DosageR, ¬ Py.truthyS d.text → d.asNeededBoolean = some true →
        AppMedicationRequest.dosageLine d
          = some (String.intercalate ", "
              ((AppMedicationRequest.dosePart d).toList
                ++ (AppMedicationRequest.timingPart d).toList ++ ["As needed"])))
    ∧ (∀ (m : MedicationRequestR) (d1 d2 : DosageR) (l1 l2 : String),
        m.dosageInstruction = [d1, d2] →
        AppMedicationRequest.dosageLine d1 = some l1 →
        AppMedicationRequest.dosageLine d2 = some l2 →
        AppMedicationRequest.dosage_text m = some (l1 ++ "; " ++ l2)) := by
  refine ⟨?_, ?_, ?_, ?_, ?_, ?_, ?_, ?_, ?_, ?_, ?_⟩
  · intro d h
    unfold AppMedicationRequest.dosageLine
    rw [if_pos h]
  · intro t u tm an v rest h
    unfold AppMedicationRequest.dosePart
    rw [List.findSome?_cons]
    simp [h]
  · intro p u h
    unfold AppMedicationRequest.timingPhrase
    rw [if_pos ⟨rfl, h⟩]
  · intro p u h
    unfold AppMedicationRequest.timingPhrase
    rw [if_neg (by simp), if_pos ⟨rfl, h⟩]
  · intro p u h
    unfold AppMedicationRequest.timingPhrase
    rw [if_neg (by simp), if_neg (by simp), if_pos ⟨rfl, h⟩]
  · intro p h
    unfold AppMedicationRequest.timingPhrase
    rw [if_neg (by simp [h]), if_neg (by simp), if_neg (by simp), if_pos ⟨rfl, rfl⟩]
  · intro f p u hnd hne
    unfold AppMedicationRequest.timingPhrase
    rw [if_neg (by rintro ⟨h1, h2⟩; exact hnd h2), if_neg (by rintro ⟨h1, h2⟩; exact hnd h2),
        if_neg (by rintro ⟨h1, h2⟩; exact hnd h2), if_neg hne]
  · intro t dr an cc
    rfl
  · intro t dr an rep tc h
    change (if (Py.truthyN rep.frequency ∧ (rep.period.map PyDecimal.truthy).getD false
        ∧ Py.truthyS rep.periodUnit) then
          some (AppMedicationRequest.timingPhrase (rep.frequency.getD 0)
            (rep.period.getD ⟨0, 0⟩) (rep.periodUnit.getD ""))
        else none) = none
    rw [if_neg h]
  · intro d htext han
    unfold AppMedicationRequest.dosageLine
    rw [if_neg htext, han]
    rw [if_neg (by simp)]
    rw [if_pos rfl]
  · intro m d1 d2 l1 l2 hm h1 h2
    unfold AppMedicationRequest.dosage_text
    rw [hm]
    rw [if_neg (by simp)]
    have hfm : ([d1, d2].filterMap AppMedicationRequest.dosageLine) = [l1, l2] := by
      simp [List.filterMap_cons, h1, h2]
    rw [hfm]
    rfl

/-- C6 counterexample: a structured dosage with frequency 2, period 2 days
and no free text humanizes to `2 times per 2 days`, not to the `Twice a day`
the claim's unconditional frequency-2 row predicts. -/
theorem c6_counterexample :
    AppMedicationRequest.dosage_text
        ⟨none, none, none, none, none,
         [⟨none, [], some ⟨some ⟨some 2, some ⟨2, 0⟩, some "d"⟩, none⟩, none⟩]⟩
      = some "2 times per 2 days"
    ∧ some "2 times per 2 days" ≠ some "Twice a day" := by
  refine ⟨by decide, by decide⟩

/-- C6 witness: the `Once a day` row applied at the concrete period of one
day, and the amended `Twice a day` row at 24 hours. -/
theorem c6_witness :
    AppMedicationRequest.timingPhrase 1 ⟨1, 0⟩ "d" = "Once a day"
    ∧ AppMedicationRequest.timingPhrase 2 ⟨24, 0⟩ "h" = "Twice a day" :=
⟨c6_dosage_rule_table.2.2.1 ⟨1, 0⟩ "d" (Or.inl ⟨by decide, rfl⟩),
 c6_dosage_rule_table.2.2.2.1 ⟨24, 0⟩ "h" (Or.inr ⟨by decide, rfl⟩)⟩

/-- C2: the temporal anchor is the maximum of the dated events collected
across diagnostic reports, observations, procedures, medication requests and
conditions — a member of and an upper bound for the collected dates, and
independent of the wall-clock date whenever any dated event exists — with
the real current date as fallback otherwise; the age is whole years between
birth date and this anchor, less one when the anchor's (month, day) precedes
the birthday; and the context's opening line is stamped with this anchor. -/
theorem c2_temporal_anchor_and_age :
    (∀ (s : PatientState) (today : PyDate),
      AppPatient.collectedDates s = [] → AppPatient.last_interaction_date s today = today)
    ∧ (∀ (s : PatientState) (today : PyDate),
        AppPatient.collectedDates s ≠ [] →
        AppPatient.last_interaction_date s today ∈ AppPatient.collectedDates s
        ∧ (∀ d ∈ AppPatient.collectedDates s, d ≤ AppPatient.last_interaction_date s today)
        ∧ (∀ today2, AppPatient.last_interaction_date s today
            = AppPatient.last_interaction_date s today2))
    ∧ (∀ (s : PatientState) (today : PyDate) (b : PyDate), s.resource.birthDate = some b →
        ((AppPatient.last_interaction_date s today).month < b.month
          ∨ ((AppPatient.last_interaction_date s today).month = b.month
             ∧ (AppPatient.last_interaction_date s today).day < b.day) →
          AppPatient.age s today
            = ((AppPatient.last_interaction_date s today).year : Int) - (b.year : Int) - 1)
        ∧ (¬ ((AppPatient.last_interaction_date s today).month < b.month
          ∨ ((AppPatient.last_interaction_date s today).month = b.month
             ∧ (AppPatient.last_interaction_date s today).day < b.day)) →
          AppPatient.age s today
            = ((AppPatient.last_interaction_date s today).year : Int) - (b.year : Int)))
    ∧ (∀ dec (s : PatientState) medication_map today,
        (AppPatient.genParts dec s medication_map today).head?
          = some ("(Current Date: "
              ++ (AppPatient.last_interaction_date s today).strftime ++ ")")) := by
  refine ⟨?_, ?_, ?_, ?_⟩
  · intro s today h
    unfold AppPatient.last_interaction_date
    rw [h]
  · intro s today h
    cases hc : AppPatient.collectedDates s with
    | nil => exact absurd hc h
    | cons d ds =>
      obtain ⟨hmem, hdle, hub⟩ := pyMaxFrom_spec ds d
      have hval : AppPatient.last_interaction_date s today = Py.pyMaxFrom d ds := by
        unfold AppPatient.last_interaction_date
        rw [hc]
      refine ⟨?_, ?_, ?_⟩
      · rw [hval]; exact hmem
      · intro x hx
        rw [hval]
        rcases List.mem_cons.mp hx with rfl | hx2
        · exact hdle
        · exact hub x hx2
      · intro today2
        have hval2 : AppPatient.last_interaction_date s today2 = Py.pyMaxFrom d ds := by
          unfold AppPatient.last_interaction_date
          rw [hc]
        rw [hval, hval2]
  · intro s today b hb
    constructor
    · intro hlt
      unfold AppPatient.age
      rw [hb]
      simp only [if_pos hlt]
    · intro hge
      unfold AppPatient.age
      rw [hb]
      simp only [if_neg hge]
      ring
  · intro dec s medication_map today
    rfl

/-- A patient aggregate with no clinical history (used by witnesses). -/
def emptyPatient : PatientState :=
⟨⟨none, none⟩, [], [], [], [], [], [], [], [], [], []⟩

/-- A patient born 1980-01-01 whose only dated event is a condition with
onset 2020-05-01 (used by witnesses). -/
def onsetPatient : PatientState :=
⟨⟨some "female", some ⟨1980, 1, 1⟩⟩, [], [], [],
 [⟨none, none, none, some ⟨2020, 5, 1⟩, none⟩], [], [], [], [], [], []⟩

/-- C2 witness: a patient with no dated history anchors on the supplied
current date; a patient whose only dated event is a 2020-05-01 condition
onset anchors there and derives the age 40 from a 1980-01-01 birth date. -/
theorem c2_witness :
    AppPatient.last_interaction_date emptyPatient ⟨2026, 10, 12⟩ = ⟨2026, 10, 12⟩
    ∧ AppPatient.last_interaction_date onsetPatient ⟨2026, 10, 12⟩
        ∈ AppPatient.collectedDates onsetPatient
    ∧ AppPatient.age onsetPatient ⟨2026, 10, 12⟩ = 40 :=
⟨c2_temporal_anchor_and_age.1 emptyPatient ⟨2026, 10, 12⟩ rfl,
 (c2_temporal_anchor_and_age.2.1 onsetPatient ⟨2026, 10, 12⟩ (by decide)).1,
 by
  have h := (c2_temporal_anchor_and_age.2.2.1 onsetPatient ⟨2026, 10, 12⟩ ⟨1980, 1, 1⟩ rfl).2
  rw [h (by decide)]
  decide⟩

/-- C1: the problem list keeps exactly the conditions whose clinical status
is Active, Recurrence, Relapse or unset and whose verification status is
neither Refuted nor Entered-in-error; it renders them sorted stably
ascending by onset (the sorted list is a permutation of the filtered one;
missing onsets, keyed with the minimal date, come first when every actual
onset is above it); duplicates by exact rendered string appear once keeping
the first occurrence (the emitted list is duplicate-free and contains
exactly the renders of the filtered conditions); and an empty filter
produces the explicit `No active conditions reported` section. -/
theorem c1_problem_list_section (conds : List ConditionR) :
    (conds.filter (fun c => AppPatient.keepCondition c) = [] →
      AppPatient.conditionsParts conds
        = ["\n### ACTIVE CONDITIONS (PROBLEM LIST)\n- No active conditions reported"])
    ∧ (conds.filter (fun c => AppPatient.keepCondition c) ≠ [] →
      AppPatient.conditionsParts conds
        = "\n### ACTIVE CONDITIONS (PROBLEM LIST)"
          :: Py.dedupFirst
              ((Py.sortByKey AppPatient.condKey
                  (conds.filter (fun c => AppPatient.keepCondition c))).map
                AppCondition.to_prompt_string))
    ∧ (Py.sortByKey AppPatient.condKey
        (conds.filter (fun c => AppPatient.keepCondition c))).Perm
        (conds.filter (fun c => AppPatient.keepCondition c))
    ∧ List.Sorted (fun a b => AppPatient.condKey a ≤ AppPatient.condKey b)
        (Py.sortByKey AppPatient.condKey (conds.filter (fun c => AppPatient.keepCondition c)))
    ∧ ((∀ c ∈ conds, ∀ d, AppCondition.onset_date c = some d → PyDate.min < d) →
        List.Pairwise
          (fun a b => AppCondition.onset_date b = none → AppCondition.onset_date a = none)
          (Py.sortByKey AppPatient.condKey
            (conds.filter (fun c => AppPatient.keepCondition c))))
    ∧ (Py.dedupFirst
        ((Py.sortByKey AppPatient.condKey
            (conds.filter (fun c => AppPatient.keepCondition c))).map
          AppCondition.to_prompt_string)).Nodup
    ∧ (∀ x, x ∈ Py.dedupFirst
          ((Py.sortByKey AppPatient.condKey
              (conds.filter (fun c => AppPatient.keepCondition c))).map
            AppCondition.to_prompt_string)
        ↔ ∃ c, c ∈ conds.filter (fun c => AppPatient.keepCondition c)
            ∧ AppCondition.to_prompt_string c = x) := by
  have hperm := sortByKey_perm AppPatient.condKey
    (conds.filter (fun c => AppPatient.keepCondition c))
  refine ⟨?_, ?_, hperm, sortByKey_sorted _ _, ?_, nodup_dedupFirst _, ?_⟩
  · intro h
    unfold AppPatient.conditionsParts
    rw [h]
    rfl
  · intro h
    unfold AppPatient.conditionsParts
    rw [if_neg (by simp [List.isEmpty_iff, h])]
    rw [problemLoop_eq_dedupFirst]
    congr 1
    congr 1
    refine List.filter_eq_self.mpr ?_
    intro a ha
    simp
  · intro hmin
    have hs := sortByKey_sorted AppPatient.condKey
      (conds.filter (fun c => AppPatient.keepCondition c))
    refine List.Pairwise.imp_of_mem ?_ hs
    intro a b hma hmb hle hbnone
    cases ho : AppCondition.onset_date a with
    | none => rfl
    | some d =>
      exfalso
      have ha_conds : a ∈ conds :=
        (List.mem_filter.mp (hperm.mem_iff.mp hma)).1
      have hlt := hmin a ha_conds d ho
      have hka : AppPatient.condKey a = d := by
        unfold AppPatient.condKey
        rw [ho]
        rfl
      have hkb : AppPatient.condKey b = PyDate.min := by
        unfold AppPatient.condKey
        rw [hbnone]
        rfl
      rw [hka, hkb] at hle
      exact absurd (lt_of_lt_of_le hlt hle) (lt_irrefl _)
  · intro x
    rw [mem_dedupFirst, List.mem_map]
    constructor
    · rintro ⟨c, hc, hcx⟩
      exact ⟨c, hperm.mem_iff.mp hc, hcx⟩
    · rintro ⟨c, hc, hcx⟩
      exact ⟨c, hperm.mem_iff.mpr hc, hcx⟩

/-- C1 counterpart witness: the section for one active hypertension
condition (onset 2020-05-01), one duplicate of it, and one refuted
condition contains the hypertension line exactly once. -/
theorem c1_witness :
    AppPatient.conditionsParts
        [⟨some ⟨none, [⟨none, some "active", none⟩]⟩, none,
          some ⟨some "Hypertension", []⟩, some ⟨2020, 5, 1⟩, none⟩,
         ⟨some ⟨none, [⟨none, some "active", none⟩]⟩, none,
          some ⟨some "Hypertension", []⟩, some ⟨2020, 5, 1⟩, none⟩,
         ⟨some ⟨none, [⟨none, some "active", none⟩]⟩,
          some ⟨none, [⟨none, some "refuted", none⟩]⟩,
          some ⟨some "Old Problem", []⟩, none, none⟩]
      = ["\n### ACTIVE CONDITIONS (PROBLEM LIST)",
         "- Hypertension [Onset: 2020-05-01]"] := by
  have h := (c1_problem_list_section
    [⟨some ⟨none, [⟨none, some "active", none⟩]⟩, none,
      some ⟨some "Hypertension", []⟩, some ⟨2020, 5, 1⟩, none⟩,
     ⟨some ⟨none, [⟨none, some "active", none⟩]⟩, none,
      some ⟨some "Hypertension", []⟩, some ⟨2020, 5, 1⟩, none⟩,
     ⟨some ⟨none, [⟨none, some "active", none⟩]⟩,
      some ⟨none, [⟨none, some "refuted", none⟩]⟩,
      some ⟨some "Old Problem", []⟩, none, none⟩]).2.1 (by decide)
  rw [h]
  have h2 : (Py.sortByKey AppPatient.condKey
      (List.filter (fun c => decide (AppPatient.keepCondition c))
        [⟨some ⟨none, [⟨none, some "active", none⟩]⟩, none,
          some ⟨some "Hypertension", []⟩, some ⟨2020, 5, 1⟩, none⟩,
         ⟨some ⟨none, [⟨none, some "active", none⟩]⟩, none,
          some ⟨some "Hypertension", []⟩, some ⟨2020, 5, 1⟩, none⟩,
         ⟨some ⟨none, [⟨none, some "active", none⟩]⟩,
          some ⟨none, [⟨none, some "refuted", none⟩]⟩,
          some ⟨some "Old Problem", []⟩, none, none⟩])).map AppCondition.to_prompt_string
      = ["- Hypertension [Onset: 2020-05-01]", "- Hypertension [Onset: 2020-05-01]"] := by
    decide
  rw [h2, dedupFirst_cons]
  have h3 : (["- Hypertension [Onset: 2020-05-01]"].filter
      (fun x => x ≠ "- Hypertension [Onset: 2020-05-01]")) = [] := by decide
  rw [h3, dedupFirst_nil]

/-- The distinct immunization grouping keys in first-seen order. -/
def immKeys (imms : List ImmunizationR) : List (String × String) :=
Py.dedupFirst ((AppPatient.immPairs imms).map Prod.fst)

/-- The occurrence dates of the completed, dated immunizations of one
grouping key, in input order. -/
def immDatesOf (imms : List ImmunizationR) (k : String × String) : List PyDate :=
(AppPatient.immPairs imms).filterMap (fun p => if p.1 = k then some p.2 else none)

/-- C5: the Immunization History section renders exactly one line per
distinct (name, code-signature) key of the completed dated records, in
first-seen order; a key with more than five dated records shows the exact
dose count and only the maximum occurrence date as
`(N doses, Latest: <date>)`, while a key with one to five dated records
lists all its dates sorted ascending. -/
theorem c5_immunization_grouping (imms : List ImmunizationR) :
    (imms.filter (fun i => AppImmunization.status i = some "completed") ≠ [] →
      AppPatient.immunizationsParts imms
        = "\n### IMMUNIZATION HISTORY"
          :: (immKeys imms).map (fun k => AppPatient.renderImmGroup k (immDatesOf imms k)))
    ∧ (immKeys imms).Nodup
    ∧ (∀ k, k ∈ immKeys imms ↔ immDatesOf imms k ≠ [])
    ∧ (∀ k, 5 < (immDatesOf imms k).length →
        ∃ dmax, dmax ∈ immDatesOf imms k ∧ (∀ d ∈ immDatesOf imms k, d ≤ dmax)
          ∧ AppPatient.renderImmGroup k (immDatesOf imms k)
            = "- " ++ k.1 ++ (" (" ++ toString (immDatesOf imms k).length
                ++ " doses, Latest: " ++ dmax.strftime ++ ")") ++ k.2)
    ∧ (∀ k, immDatesOf imms k ≠ [] → (immDatesOf imms k).length ≤ 5 →
        AppPatient.renderImmGroup k (immDatesOf imms k)
          = "- " ++ k.1 ++ (" (Dates: "
              ++ String.intercalate ", "
                  ((Py.sortByKey id (immDatesOf imms k)).map PyDate.strftime)
              ++ ")") ++ k.2) := by
  refine ⟨?_, nodup_dedupFirst _, ?_, ?_, ?_⟩
  · intro h
    unfold AppPatient.immunizationsParts
    rw [if_neg (by simp [List.isEmpty_iff, h])]
    congr 1
    unfold immKeys immDatesOf
    rw [groupFold_eq, List.map_map]
    rfl
  · intro k
    unfold immKeys immDatesOf
    rw [mem_dedupFirst, List.mem_map]
    constructor
    · rintro ⟨p, hp, rfl⟩
      intro hc
      have hmem : p.2 ∈ (AppPatient.immPairs imms).filterMap
          (fun q => if q.1 = p.1 then some q.2 else none) := by
        rw [List.mem_filterMap]
        exact ⟨p, hp, by rw [if_pos rfl]⟩
      rw [hc] at hmem
      exact List.not_mem_nil _ hmem
    · intro h
      cases hd : (AppPatient.immPairs imms).filterMap
          (fun p => if p.1 = k then some p.2 else none) with
      | nil => exact absurd hd h
      | cons x xs =>
        have hx : x ∈ (AppPatient.immPairs imms).filterMap
            (fun p => if p.1 = k then some p.2 else none) := by
          rw [hd]; exact List.mem_cons_self _ _
        rw [List.mem_filterMap] at hx
        obtain ⟨p, hp, hpx⟩ := hx
        by_cases hpk : p.1 = k
        · exact ⟨p, hp, hpk⟩
        · rw [if_neg hpk] at hpx
          exact absurd hpx (by simp)
  · intro k hlen
    have hne : immDatesOf imms k ≠ [] := by
      intro hc
      rw [hc] at hlen
      simp at hlen
    obtain ⟨hmem, hub⟩ := sortByKey_getLastD_max (immDatesOf imms k) hne
    have hlen2 : (Py.sortByKey id (immDatesOf imms k)).length
        = (immDatesOf imms k).length := (sortByKey_perm id _).length_eq
    have hne2 : Py.sortByKey id (immDatesOf imms k) ≠ [] := by
      intro hc
      rw [← List.length_eq_zero] at hc
      rw [hlen2] at hc
      rw [hc] at hlen
      simp at hlen
    refine ⟨(Py.sortByKey id (immDatesOf imms k)).getLastD PyDate.min, hmem, hub, ?_⟩
    show "- " ++ k.1
        ++ (if (Py.sortByKey id (immDatesOf imms k)).isEmpty then ""
            else if 5 < (Py.sortByKey id (immDatesOf imms k)).length then
              " (" ++ toString (Py.sortByKey id (immDatesOf imms k)).length
                ++ " doses, Latest: "
                ++ ((Py.sortByKey id (immDatesOf imms k)).getLastD PyDate.min).strftime ++ ")"
            else " (Dates: " ++ String.intercalate ", "
                ((Py.sortByKey id (immDatesOf imms k)).map PyDate.strftime) ++ ")")
        ++ k.2 = _
    rw [if_neg (by simp [List.isEmpty_iff, hne2]), if_pos (by rw [hlen2]; exact hlen), hlen2]
  · intro k hne hle
    have hlen2 : (Py.sortByKey id (immDatesOf imms k)).length
        = (immDatesOf imms k).length := (sortByKey_perm id _).length_eq
    have hne2 : Py.sortByKey id (immDatesOf imms k) ≠ [] := by
      intro hc
      apply hne
      have := congrArg List.length hc
      rw [hlen2] at this
      exact List.length_eq_zero.mp this
    show "- " ++ k.1
        ++ (if (Py.sortByKey id (immDatesOf imms k)).isEmpty then ""
            else if 5 < (Py.sortByKey id (immDatesOf imms k)).length then
              " (" ++ toString (Py.sortByKey id (immDatesOf imms k)).length
                ++ " doses, Latest: "
                ++ ((Py.sortByKey id (immDatesOf imms k)).getLastD PyDate.min).strftime ++ ")"
            else " (Dates: " ++ String.intercalate ", "
                ((Py.sortByKey id (immDatesOf imms k)).map PyDate.strftime) ++ ")")
        ++ k.2 = _
    rw [if_neg (by simp [List.isEmpty_iff, hne2]),
        if_neg (by rw [hlen2]; exact fun hc => absurd hle (by omega))]

/-- Six completed influenza shots on distinct dates (used by the C5 witness). -/
def fluShots : List ImmunizationR :=
[⟨some "completed", some "Influenza", "", some ⟨2020, 1, 1⟩⟩,
 ⟨some "completed", some "Influenza", "", some ⟨2021, 1, 1⟩⟩,
 ⟨some "completed", some "Influenza", "", some ⟨2022, 1, 1⟩⟩,
 ⟨some "completed", some "Influenza", "", some ⟨2023, 1, 1⟩⟩,
 ⟨some "completed", some "Influenza", "", some ⟨2024, 1, 1⟩⟩,
 ⟨some "completed", some "Influenza", "", some ⟨2025, 1, 1⟩⟩]

/-- C5 witness: six completed influenza doses collapse to one entry with the
exact count and the maximum date. -/
theorem c5_witness :
    ∃ dmax, dmax ∈ immDatesOf fluShots ("Influenza", "")
      ∧ (∀ d ∈ immDatesOf fluShots ("Influenza", ""), d ≤ dmax)
      ∧ AppPatient.renderImmGroup ("Influenza", "") (immDatesOf fluShots ("Influenza", ""))
        = "- " ++ ("Influenza", "").1
          ++ (" (" ++ toString (immDatesOf fluShots ("Influenza", "")).length
              ++ " doses, Latest: " ++ dmax.strftime ++ ")") ++ ("Influenza", "").2 :=
(c5_immunization_grouping fluShots).2.2.2.1 ("Influenza", "") (by decide)

end DSA
